import Mathlib

/-!
# nanokontrol: a shallow embedding of `src/kontrol.cpp`

The node reads control-change frames from a MIDI control surface and republishes
them as a `sensor_msgs::Joy` snapshot.  This file embeds the class `Kontrol`
(constructor, `findKontrolPort`, `setType`, `bindMaps`, `updateMsg`, `getMessage`)
as pure functions over an explicit state and proves properties of them.

Modelling conventions

* `uint`, `unsigned char` and the `char` entries of the mapping tables are natural
  numbers (every table entry is non-negative, so `char → uint` is the identity);
  the two conversions `uint → int` and `int → uint` that the code performs on the
  port number are explicit (`toInt32`, `toUInt32`).
* `float` values are exact rationals: `(float(b2) - 63.5) / 63.5` and
  `float(b2) / 127.0` are computed in `ℚ`, without rounding.
* `std::map<uint, T*>` is a finite partial function from keys to offsets into the
  vector the pointers were taken from (`data() + counter` is the offset `counter`);
  writing through the pointer is `List.set` at that offset.
* The RtMidi input object is external: its port list is a `List String` of port
  names and its message queue a `List (List Nat)` of frames; `ros::Time::now()` is
  a parameter.
-/

namespace Nanokontrol

/-! ## Data model -/

/-- The enum `KONTROL_TYPE` (line 7). -/
inductive KONTROL_TYPE where
  | KONTROL
  | KONTROL2
  deriving DecidableEq, Repr

open KONTROL_TYPE

/-- Button table of the nanoKONTROL (line 9). -/
def nanoKontrolButtonMapping : List Nat :=
  [23, 33, 24, 34, 25, 35, 26, 36, 27, 37, 28, 38, 29, 39, 30, 40, 31, 41, 47, 45, 48, 49, 46, 44]

/-- Axis table of the nanoKONTROL (line 10). -/
def nanoKontrolAxisMapping : List Nat :=
  [2, 3, 4, 5, 6, 8, 9, 12, 13, 14, 15, 16, 17, 18, 19, 20, 21, 22]

/-- Button table of the nanoKONTROL2 (line 11). -/
def nanoKontrol2ButtonMapping : List Nat :=
  [32, 33, 34, 35, 36, 37, 38, 39, 48, 49, 50, 51, 52, 53, 54, 55, 64, 65, 66, 67, 68, 69, 70,
   71, 43, 44, 42, 41, 45, 58, 59, 60, 61, 62, 46]

/-- Axis table of the nanoKONTROL2 (line 12). -/
def nanoKontrol2AxisMapping : List Nat :=
  [0, 1, 2, 3, 4, 5, 6, 7, 16, 17, 18, 19, 20, 21, 22, 23]

/-- The header of a `sensor_msgs::Joy` message: time stamp and frame id. -/
structure Header where
  stamp : Nat
  frame_id : String
  deriving DecidableEq, Repr

/-- The message `sensor_msgs::Joy`: header, `float` axes, `int` buttons. -/
structure Joy where
  header : Header
  axes : List ℚ
  buttons : List Int
  deriving DecidableEq, Repr

/-- A `std::map<uint, T*>` whose pointers all point into one vector: key to offset. -/
abbrev PtrMap := Nat → Option Nat

/-- The statement `m[key] = data() + offset` on a `std::map` (insert or overwrite). -/
def PtrMap.assign (m : PtrMap) (key offset : Nat) : PtrMap :=
  fun x => if x = key then some offset else m x

/-- The data members of `class Kontrol` (lines 21-29), without the RtMidi handle and the
publisher, which are external. -/
structure Kontrol where
  slider_range : Int
  port : Nat
  type : KONTROL_TYPE
  axis_map : PtrMap
  button_map : PtrMap
  joy_msg : Joy

/-- The object before the constructor body runs: empty maps, default-constructed message.
The scalar members are assigned before they are read. -/
def Kontrol.blank : Kontrol where
  slider_range := 0
  port := 0
  type := KONTROL
  axis_map := fun _ => none
  button_map := fun _ => none
  joy_msg := { header := { stamp := 0, frame_id := "" }, axes := [], buttons := [] }

/-! ## Machine integers -/

/-- Conversion of an `unsigned int` to `int` (the `return i` of `findKontrolPort`). -/
def toInt32 (n : Nat) : Int :=
  if n % 4294967296 < 2147483648 then (n % 4294967296 : Nat) else (n % 4294967296 : Nat) - 4294967296

/-- Conversion of an `int` to `unsigned int` (the assignments to `port`). -/
def toUInt32 (x : Int) : Nat :=
  (x % 4294967296).toNat

/-! ## Port names -/

/-- Whether `needle` stands at the very start of `hay`. -/
def startsWith : List Char → List Char → Bool
  | [], _ => true
  | _ :: _, [] => false
  | a :: as, b :: bs => a == b && startsWith as bs

/-- Search for the first occurrence of `needle` in `hay`, `pos` being the position of the
head of `hay` in the whole string. -/
def findFrom (needle : List Char) : List Char → Nat → Option Nat
  | [], pos => if startsWith needle [] then some pos else none
  | c :: cs, pos => if startsWith needle (c :: cs) then some pos else findFrom needle cs (pos + 1)

/-- The call `s.find(needle)` of `std::string`: position of the first occurrence, `none`
standing for `std::string::npos`. -/
def find (s needle : String) : Option Nat :=
  findFrom needle.toList s.toList 0

/-- The call `midiin->getPortName(i)`: RtMidi returns the empty string for a port number
that does not exist. -/
def getPortName (ports : List String) (i : Nat) : String :=
  ports.getD i ""

/-! ## Device selection (lines 37-47, 66-85) -/

/-- The loop of `findKontrolPort` (lines 69-75), `i` being the loop counter and the list
the names of the ports `i, i+1, ...`. -/
def findKontrolPortLoop : List String → Nat → Option Int
  | [], _ => none
  | portName :: rest, i =>
    if find portName "nanoKONTROL" ≠ none then some (toInt32 i)
    else findKontrolPortLoop rest (i + 1)

/-- The method `Kontrol::findKontrolPort` (lines 66-78): the index of the first port whose
name contains "nanoKONTROL", or `-1`. -/
def findKontrolPort (ports : List String) : Int :=
  match findKontrolPortLoop ports 0 with
  | some i => i
  | none => -1

/-- The method `Kontrol::setType` (lines 79-85). -/
def setType (ports : List String) (k : Kontrol) : Kontrol :=
  let portName := getPortName ports k.port
  if find portName "nanoKONTROL2" ≠ none then { k with type := KONTROL2 }
  else { k with type := KONTROL }

/-- Lines 40-47 of the constructor: choice of the port and of the variant. -/
def selectDevice (ports : List String) (portn : Int) (k : Kontrol) : Kontrol :=
  let k1 := if portn < 0 then { k with port := toUInt32 (findKontrolPort ports) }
            else { k with port := toUInt32 portn }
  setType ports k1

/-! ## Binding (lines 105-130) -/

/-- The two loops of `bindMaps` (lines 122-128): `m[id] = data() + counter++` for every
`id` of the table in order. -/
def bindLoop : List Nat → Nat → PtrMap → PtrMap
  | [], _, m => m
  | id :: ids, counter, m => bindLoop ids (counter + 1) (m.assign id counter)

/-- The method `Kontrol::bindMaps` (lines 105-130). -/
def bindMaps (k : Kontrol) : Kontrol :=
  let axis_numbers := if k.type = KONTROL then nanoKontrolAxisMapping else nanoKontrol2AxisMapping
  let button_numbers :=
    if k.type = KONTROL then nanoKontrolButtonMapping else nanoKontrol2ButtonMapping
  let frame_id := if k.type = KONTROL then "kontrol" else "kontrol2"
  { k with
    joy_msg :=
      { header := { k.joy_msg.header with frame_id := frame_id }
        buttons := List.replicate button_numbers.length 0
        axes := List.replicate axis_numbers.length 0 }
    axis_map := bindLoop axis_numbers 0 k.axis_map
    button_map := bindLoop button_numbers 0 k.button_map }

/-- The constructor `Kontrol::Kontrol` (lines 37-53).  `openPort` tells whether RtMidi opens
the given port (`false`: it throws `RtMidiError` and the object is not built);
`slider_param` is the value of the ROS parameter `~/slider_range` when it is set. -/
def Kontrol.construct (ports : List String) (portn : Int) (openPort : Nat → Bool)
    (slider_param : Option Int) : Option Kontrol :=
  let k := selectDevice ports portn Kontrol.blank
  if openPort k.port then
    let k := bindMaps k
    some { k with slider_range := slider_param.getD 1 }
  else none

/-! ## Applying one event (lines 131-144) -/

/-- The method `Kontrol::updateMsg` (lines 131-144). -/
def updateMsg (k : Kontrol) (b1 b2 : Nat) : Kontrol :=
  let it1 := k.axis_map b1
  let k1 : Kontrol :=
    match it1 with
    | some p =>
      if k.slider_range ≠ 0 then
        { k with joy_msg := { k.joy_msg with axes := k.joy_msg.axes.set p (((b2 : ℚ) - 63.5) / 63.5) } }
      else k
    | none => k
  let k2 : Kontrol :=
    match it1 with
    | some p =>
      if k1.slider_range = 0 then
        { k1 with joy_msg := { k1.joy_msg with axes := k1.joy_msg.axes.set p ((b2 : ℚ) / 127.0) } }
      else k1
    | none => k1
  let it2 := k2.button_map b1
  match it2 with
  | some p =>
    { k2 with
      joy_msg := { k2.joy_msg with buttons := k2.joy_msg.buttons.set p (if b2 > 0 then 1 else 0) } }
  | none => k2

/-! ## One polling tick (lines 86-104) -/

/-- The test of line 94 together with the two bytes line 95 passes on: `some (b1, b2)` when
the frame has three bytes and the first is 176. -/
def controlChange (message : List Nat) : Option (Nat × Nat) :=
  if message.length = 3 ∧ message.getD 0 0 = 176 then some (message.getD 1 0, message.getD 2 0)
  else none

/-- The body of the `do` loop (lines 92-97) for one frame. -/
def loopBody (k : Kontrol) (update : Bool) (message : List Nat) : Kontrol × Bool :=
  match controlChange message with
  | some (b1, b2) => (updateMsg k b1 b2, true)
  | none => (k, update)

/-- The `do ... while (message.size() > 0)` loop (lines 90-98) over the queue of the MIDI
input: `midiin->getMessage` hands out the front frame of the queue, or an empty frame
when the queue is empty.  The result is the object, the flag and what is left in the queue. -/
def drain (k : Kontrol) (update : Bool) : List (List Nat) → Kontrol × Bool × List (List Nat)
  | [] => ((loopBody k update []).1, (loopBody k update []).2, [])
  | message :: rest =>
    let r := loopBody k update message
    if message.length > 0 then drain r.1 r.2 rest else (r.1, r.2, rest)

/-- What one call of `getMessage` leaves behind. -/
structure Tick where
  kontrol : Kontrol
  queue : List (List Nat)
  update : Bool
  published : List Joy

/-- The method `Kontrol::getMessage` (lines 86-104); `now` is `ros::Time::now()`. -/
def getMessage (k : Kontrol) (queue : List (List Nat)) (now : Nat) : Tick :=
  let r := drain k false queue
  if r.2.1 then
    let k1 := { r.1 with joy_msg := { r.1.joy_msg with header := { r.1.joy_msg.header with stamp := now } } }
    { kontrol := k1, queue := r.2.2, update := true, published := [k1.joy_msg] }
  else
    { kontrol := r.1, queue := r.2.2, update := false, published := [] }

/-! ## States the node can be in -/

/-- The table `bindMaps` uses for the axes of a variant. -/
def axisMapping (t : KONTROL_TYPE) : List Nat :=
  if t = KONTROL then nanoKontrolAxisMapping else nanoKontrol2AxisMapping

/-- The table `bindMaps` uses for the buttons of a variant. -/
def buttonMapping (t : KONTROL_TYPE) : List Nat :=
  if t = KONTROL then nanoKontrolButtonMapping else nanoKontrol2ButtonMapping

/-- The object at the end of a successful constructor run that chose variant `t` on port
`port` and read `slider_range` as `sr`. -/
def bound (t : KONTROL_TYPE) (port : Nat) (sr : Int) : Kontrol :=
  { bindMaps { Kontrol.blank with port := port, type := t } with slider_range := sr }

/-- The object after the events `evs` (pairs `(b1, b2)`) were applied in order. -/
def applyAll (k : Kontrol) (evs : List (Nat × Nat)) : Kontrol :=
  evs.foldl (fun s e => updateMsg s e.1 e.2) k

/-- The value line 135 or line 137 stores for the raw byte `b2`. -/
def axisValue (sr : Int) (b2 : Nat) : ℚ :=
  if sr ≠ 0 then ((b2 : ℚ) - 63.5) / 63.5 else (b2 : ℚ) / 127.0

/-- What the constructor wires once and for all for variant `t`: the two maps built by
`bindMaps` from empty maps, and the lengths of the two vectors of the message. -/
def Wired (t : KONTROL_TYPE) (k : Kontrol) : Prop :=
  k.axis_map = bindLoop (axisMapping t) 0 (fun _ => none) ∧
  k.button_map = bindLoop (buttonMapping t) 0 (fun _ => none) ∧
  k.joy_msg.axes.length = (axisMapping t).length ∧
  k.joy_msg.buttons.length = (buttonMapping t).length

/-- The events one tick applies: the accepted ones among the frames in front of the first
empty frame of the queue. -/
def drained (queue : List (List Nat)) : List (Nat × Nat) :=
  (queue.takeWhile (fun m => decide (m.length > 0))).filterMap controlChange


/-! ## Auxiliary lemmas -/

theorem bindLoop_of_not_mem (ids : List Nat) (c : Nat) (m : PtrMap) (id : Nat)
    (h : id ∉ ids) : bindLoop ids c m id = m id := by
  induction ids generalizing c m with
  | nil => rfl
  | cons a rest ih =>
    have ha : id ≠ a := fun e => h (e ▸ List.mem_cons_self _ _)
    have hr : id ∉ rest := fun e => h (List.mem_cons_of_mem _ e)
    simp [bindLoop, ih _ _ hr, PtrMap.assign, ha]

theorem bindLoop_of_get (ids : List Nat) (c : Nat) (m : PtrMap) (id i : Nat)
    (hn : ids.Nodup) (h : ids[i]? = some id) : bindLoop ids c m id = some (c + i) := by
  induction ids generalizing c m i with
  | nil => simp at h
  | cons a rest ih =>
    rw [List.nodup_cons] at hn
    cases i with
    | zero =>
      simp at h
      subst h
      simp [bindLoop, bindLoop_of_not_mem _ _ _ _ hn.1, PtrMap.assign]
    | succ j =>
      simp at h
      simp [bindLoop, ih (c + 1) _ j hn.2 h]
      omega

theorem axisMapping_nodup (t : KONTROL_TYPE) : (axisMapping t).Nodup := by
  cases t <;> decide

theorem buttonMapping_nodup (t : KONTROL_TYPE) : (buttonMapping t).Nodup := by
  cases t <;> decide

theorem mappings_disjoint (t : KONTROL_TYPE) (id : Nat) (h : id ∈ axisMapping t) :
    id ∉ buttonMapping t := by
  cases t
  · have : ∀ x ∈ axisMapping KONTROL, x ∉ buttonMapping KONTROL := by decide
    exact this id h
  · have : ∀ x ∈ axisMapping KONTROL2, x ∉ buttonMapping KONTROL2 := by decide
    exact this id h

theorem updateMsg_axis (k : Kontrol) (b1 b2 p : Nat) (h1 : k.axis_map b1 = some p)
    (h2 : k.button_map b1 = none) :
    updateMsg k b1 b2 =
      { k with joy_msg := { k.joy_msg with axes := k.joy_msg.axes.set p (axisValue k.slider_range b2) } } := by
  unfold updateMsg axisValue
  by_cases hs : k.slider_range = 0 <;> simp [h1, h2, hs]

theorem updateMsg_button (k : Kontrol) (b1 b2 p : Nat) (h1 : k.axis_map b1 = none)
    (h2 : k.button_map b1 = some p) :
    updateMsg k b1 b2 =
      { k with joy_msg := { k.joy_msg with buttons := k.joy_msg.buttons.set p (if b2 > 0 then 1 else 0) } } := by
  unfold updateMsg
  simp [h1, h2]

theorem updateMsg_neither (k : Kontrol) (b1 b2 : Nat) (h1 : k.axis_map b1 = none)
    (h2 : k.button_map b1 = none) : updateMsg k b1 b2 = k := by
  unfold updateMsg
  simp [h1, h2]


theorem updateMsg_frame (k : Kontrol) (b1 b2 : Nat) :
    (updateMsg k b1 b2).axis_map = k.axis_map ∧ (updateMsg k b1 b2).button_map = k.button_map ∧
    (updateMsg k b1 b2).slider_range = k.slider_range ∧ (updateMsg k b1 b2).type = k.type ∧
    (updateMsg k b1 b2).port = k.port ∧ (updateMsg k b1 b2).joy_msg.header = k.joy_msg.header ∧
    (updateMsg k b1 b2).joy_msg.axes.length = k.joy_msg.axes.length ∧
    (updateMsg k b1 b2).joy_msg.buttons.length = k.joy_msg.buttons.length := by
  cases h1 : k.axis_map b1 <;> cases h2 : k.button_map b1 <;>
    by_cases hs : k.slider_range = 0 <;> simp [updateMsg, h1, h2, hs]

theorem wired_bound (t : KONTROL_TYPE) (port : Nat) (sr : Int) : Wired t (bound t port sr) := by
  cases t <;> simp [Wired, bound, bindMaps, Kontrol.blank, axisMapping, buttonMapping]

theorem wired_updateMsg (t : KONTROL_TYPE) (k : Kontrol) (b1 b2 : Nat) (h : Wired t k) :
    Wired t (updateMsg k b1 b2) := by
  obtain ⟨h1, h2, h3, h4⟩ := h
  obtain ⟨f1, f2, -, -, -, -, f7, f8⟩ := updateMsg_frame k b1 b2
  exact ⟨f1.trans h1, f2.trans h2, f7.trans h3, f8.trans h4⟩

theorem wired_applyAll (t : KONTROL_TYPE) (evs : List (Nat × Nat)) (k : Kontrol)
    (h : Wired t k) : Wired t (applyAll k evs) := by
  induction evs generalizing k with
  | nil => exact h
  | cons e rest ih => exact ih _ (wired_updateMsg t k e.1 e.2 h)

theorem slider_range_applyAll (evs : List (Nat × Nat)) (k : Kontrol) :
    (applyAll k evs).slider_range = k.slider_range := by
  induction evs generalizing k with
  | nil => rfl
  | cons e rest ih => exact (ih _).trans (updateMsg_frame k e.1 e.2).2.2.1

theorem wired_axis (t : KONTROL_TYPE) (k : Kontrol) (h : Wired t k) (id i : Nat)
    (hi : (axisMapping t)[i]? = some id) :
    k.axis_map id = some i ∧ k.button_map id = none ∧ i < k.joy_msg.axes.length := by
  obtain ⟨h1, h2, h3, -⟩ := h
  have hmem : id ∈ axisMapping t := List.getElem?_mem hi
  refine ⟨?_, ?_, ?_⟩
  · rw [h1, bindLoop_of_get _ _ _ _ _ (axisMapping_nodup t) hi, Nat.zero_add]
  · rw [h2, bindLoop_of_not_mem _ _ _ _ (mappings_disjoint t id hmem)]
  · rw [h3]
    exact (List.getElem?_eq_some_iff.mp hi).1

theorem wired_button (t : KONTROL_TYPE) (k : Kontrol) (h : Wired t k) (id j : Nat)
    (hj : (buttonMapping t)[j]? = some id) :
    k.axis_map id = none ∧ k.button_map id = some j ∧ j < k.joy_msg.buttons.length := by
  obtain ⟨h1, h2, -, h4⟩ := h
  have hmem : id ∈ buttonMapping t := List.getElem?_mem hj
  refine ⟨?_, ?_, ?_⟩
  · rw [h1, bindLoop_of_not_mem _ _ _ _ (fun ha => mappings_disjoint t id ha hmem)]
  · rw [h2, bindLoop_of_get _ _ _ _ _ (buttonMapping_nodup t) hj, Nat.zero_add]
  · rw [h4]
    exact (List.getElem?_eq_some_iff.mp hj).1

theorem wired_neither (t : KONTROL_TYPE) (k : Kontrol) (h : Wired t k) (id : Nat)
    (ha : id ∉ axisMapping t) (hb : id ∉ buttonMapping t) :
    k.axis_map id = none ∧ k.button_map id = none := by
  obtain ⟨h1, h2, -, -⟩ := h
  exact ⟨by rw [h1, bindLoop_of_not_mem _ _ _ _ ha], by rw [h2, bindLoop_of_not_mem _ _ _ _ hb]⟩

theorem toUInt32_toInt32 (n : Nat) (h : n < 4294967296) : toUInt32 (toInt32 n) = n := by
  unfold toUInt32 toInt32
  rw [Nat.mod_eq_of_lt h]
  split <;> omega

theorem toUInt32_of_nonneg (x : Int) (h0 : 0 ≤ x) (h1 : x < 4294967296) :
    toUInt32 x = x.toNat := by
  unfold toUInt32
  omega

theorem findKontrolPortLoop_none (ports : List String) (c : Nat)
    (h : ∀ name ∈ ports, find name "nanoKONTROL" = none) : findKontrolPortLoop ports c = none := by
  induction ports generalizing c with
  | nil => rfl
  | cons p rest ih =>
    have hp := h p (List.mem_cons_self _ _)
    simp only [findKontrolPortLoop, hp, ne_eq, not_true_eq_false, if_false]
    exact ih _ (fun n hn => h n (List.mem_cons_of_mem _ hn))

theorem findKontrolPortLoop_first (ports : List String) (c : Nat)
    (h : ∃ name ∈ ports, find name "nanoKONTROL" ≠ none) :
    ∃ (i : Nat) (name : String), ports[i]? = some name ∧ find name "nanoKONTROL" ≠ none ∧
      (∀ (j : Nat) (other : String), j < i → ports[j]? = some other →
        find other "nanoKONTROL" = none) ∧
      findKontrolPortLoop ports c = some (toInt32 (c + i)) := by
  induction ports generalizing c with
  | nil =>
    obtain ⟨n, hn, -⟩ := h
    exact absurd hn (List.not_mem_nil n)
  | cons p rest ih =>
    by_cases hp : find p "nanoKONTROL" = none
    · have hrest : ∃ name ∈ rest, find name "nanoKONTROL" ≠ none := by
        obtain ⟨n, hn, hf⟩ := h
        rcases List.mem_cons.mp hn with e | hm
        · exact absurd (e ▸ hp) hf
        · exact ⟨n, hm, hf⟩
      obtain ⟨i, name, h1, h2, h3, h4⟩ := ih (c + 1) hrest
      refine ⟨i + 1, name, by simpa using h1, h2, ?_, ?_⟩
      · intro j other hj hget
        cases j with
        | zero =>
          simp at hget
          exact hget ▸ hp
        | succ j' =>
          simp at hget
          exact h3 j' other (by omega) hget
      · simp only [findKontrolPortLoop, hp, ne_eq, not_true_eq_false, if_false]
        rw [h4]
        congr 2
        omega
    · refine ⟨0, p, by simp, hp, ?_, ?_⟩
      · intro j other hj
        omega
      · simp [findKontrolPortLoop, hp]

theorem startsWith_of_append (n s : List Char) (hay : List Char)
    (h : startsWith (n ++ s) hay = true) : startsWith n hay = true := by
  induction n generalizing hay with
  | nil => simp [startsWith]
  | cons a rest ih =>
    cases hay with
    | nil => simp [startsWith] at h
    | cons b bs =>
      simp only [List.cons_append, startsWith, Bool.and_eq_true] at h ⊢
      exact ⟨h.1, ih bs h.2⟩

theorem findFrom_of_append (n s : List Char) (hay : List Char) (pos : Nat)
    (h : findFrom (n ++ s) hay pos ≠ none) : findFrom n hay pos ≠ none := by
  induction hay generalizing pos with
  | nil =>
    unfold findFrom at h ⊢
    by_cases hs : startsWith (n ++ s) [] = true
    · simp [startsWith_of_append n s [] hs]
    · simp [hs] at h
  | cons c cs ih =>
    unfold findFrom at h ⊢
    by_cases hn : startsWith n (c :: cs) = true
    · simp [hn]
    · have hs : ¬ startsWith (n ++ s) (c :: cs) = true := fun e => hn (startsWith_of_append n s _ e)
      simp only [hs, if_false] at h
      simp only [hn, if_false]
      exact ih _ h

theorem find_nanoKONTROL_of_2 (name : String) (h : find name "nanoKONTROL2" ≠ none) :
    find name "nanoKONTROL" ≠ none := by
  unfold find at h ⊢
  have e : "nanoKONTROL2".toList = "nanoKONTROL".toList ++ ['2'] := by decide
  rw [e] at h
  exact findFrom_of_append _ _ _ _ h

theorem controlChange_eq_some_iff (message : List Nat) (b1 b2 : Nat) :
    controlChange message = some (b1, b2) ↔ message = [176, b1, b2] := by
  match message with
  | [] => simp [controlChange]
  | [_] => simp [controlChange]
  | [_, _] => simp [controlChange]
  | [a, b, c] =>
    simp only [controlChange, List.length_cons, List.length_nil, List.getD_cons_zero,
      List.getD_cons_succ]
    by_cases h : a = 176 <;> simp [h]
  | _ :: _ :: _ :: _ :: _ => simp [controlChange]

theorem controlChange_nil : controlChange [] = none := by decide

theorem drain_flag (queue : List (List Nat)) (k : Kontrol) (update : Bool) :
    (drain k update queue).2.1 =
      (update || (queue.takeWhile (fun m => decide (m.length > 0))).any
        (fun m => (controlChange m).isSome)) := by
  induction queue generalizing k update with
  | nil => simp [drain, loopBody, controlChange_nil]
  | cons m rest ih =>
    by_cases hm : m.length > 0
    · simp only [drain, hm, if_true, List.takeWhile_cons, decide_True, List.any_cons]
      rw [ih]
      cases hc : controlChange m <;> simp [loopBody, hc]
    · have e : m = [] := List.length_eq_zero.mp (by omega)
      subst e
      simp [drain, loopBody, controlChange_nil]

/-! ## The decoder and the effect of one event -/

/-- C1: a frame handed to the drain loop is decoded into the event (byte 1, byte 2) exactly
when it has three bytes and byte 0 is 176; then the loop body calls `updateMsg` on these two
bytes and raises the flag, and for every other frame the loop body calls nothing and leaves
object and flag as they were.  `[176,23,100]` gives `(23,100)`; `[176,23]` and `[144,23,100]`
give nothing. -/
theorem controlChange_iff (message : List Nat) (k : Kontrol) (update : Bool) :
    (∀ b1 b2, controlChange message = some (b1, b2) ↔ message = [176, b1, b2]) ∧
    (controlChange message ≠ none ↔ message.length = 3 ∧ message[0]? = some 176) ∧
    (∀ b1 b2, message = [176, b1, b2] → loopBody k update message = (updateMsg k b1 b2, true)) ∧
    (¬ (message.length = 3 ∧ message[0]? = some 176) →
      controlChange message = none ∧ loopBody k update message = (k, update)) ∧
    controlChange [176, 23, 100] = some (23, 100) ∧
    controlChange [176, 23] = none ∧ controlChange [144, 23, 100] = none := by
  have key := controlChange_eq_some_iff message
  have cond : message.length = 3 ∧ message[0]? = some 176 ↔ ∃ b1 b2, message = [176, b1, b2] := by
    match message with
    | [] => simp
    | [_] => simp
    | [_, _] => simp
    | [a, b, c] => simp
    | _ :: _ :: _ :: _ :: _ => simp
  have none_iff : controlChange message = none ↔ ¬ ∃ b1 b2, message = [176, b1, b2] := by
    constructor
    · rintro h ⟨b1, b2, e⟩
      rw [(key b1 b2).mpr e] at h
      exact Option.noConfusion h
    · intro h
      cases hc : controlChange message with
      | none => rfl
      | some e => exact absurd ⟨e.1, e.2, (key e.1 e.2).mp hc⟩ h
  refine ⟨key, ?_, ?_, ?_, by decide, by decide, by decide⟩
  · rw [cond, Ne, none_iff, not_not]
  · intro b1 b2 e
    simp [loopBody, (key b1 b2).mpr e]
  · intro h
    rw [cond] at h
    have hn := none_iff.mpr h
    exact ⟨hn, by simp [loopBody, hn]⟩

/-- C2: in every state the node reaches from a bound object of either variant, `updateMsg`
with the control id at position `i` of the axis table stores the normalised value in
`axes[i]` and changes no other axis and no button; with the control id at position `j` of
the button table it stores 0 or 1 in `buttons[j]` and changes no other button and no axis. -/
theorem updateMsg_writes_own_slot (t : KONTROL_TYPE) (port : Nat) (sr : Int)
    (evs : List (Nat × Nat)) (id v : Nat) :
    (∀ i : Nat, (axisMapping t)[i]? = some id →
      (updateMsg (applyAll (bound t port sr) evs) id v).joy_msg.axes[i]? =
          some (if sr ≠ 0 then ((v : ℚ) - 63.5) / 63.5 else (v : ℚ) / 127.0) ∧
      (∀ i' : Nat, i' ≠ i → (updateMsg (applyAll (bound t port sr) evs) id v).joy_msg.axes[i']? =
          (applyAll (bound t port sr) evs).joy_msg.axes[i']?) ∧
      (updateMsg (applyAll (bound t port sr) evs) id v).joy_msg.buttons =
          (applyAll (bound t port sr) evs).joy_msg.buttons) ∧
    (∀ j : Nat, (buttonMapping t)[j]? = some id →
      (updateMsg (applyAll (bound t port sr) evs) id v).joy_msg.buttons[j]? =
          some (if v > 0 then (1 : Int) else 0) ∧
      (∀ j' : Nat, j' ≠ j → (updateMsg (applyAll (bound t port sr) evs) id v).joy_msg.buttons[j']? =
          (applyAll (bound t port sr) evs).joy_msg.buttons[j']?) ∧
      (updateMsg (applyAll (bound t port sr) evs) id v).joy_msg.axes =
          (applyAll (bound t port sr) evs).joy_msg.axes) := by
  have hw := wired_applyAll t evs _ (wired_bound t port sr)
  have hsr : (applyAll (bound t port sr) evs).slider_range = sr := slider_range_applyAll evs _
  generalize applyAll (bound t port sr) evs = k at hw hsr
  constructor
  · intro i hi
    obtain ⟨h1, h2, h3⟩ := wired_axis t k hw id i hi
    rw [updateMsg_axis k id v i h1 h2, hsr]
    refine ⟨?_, ?_, rfl⟩
    · simp [axisValue, h3]
    · intro i' hne
      simp [List.getElem?_set, Ne.symm hne]
  · intro j hj
    obtain ⟨h1, h2, h3⟩ := wired_button t k hw id j hj
    rw [updateMsg_button k id v j h1 h2]
    refine ⟨?_, ?_, rfl⟩
    · simp [h3]
    · intro j' hne
      simp [List.getElem?_set, Ne.symm hne]

/-- Witness for C2: under KONTROL the event (23, 127) sets `buttons[0]` to 1 and leaves the
axes untouched. -/
theorem updateMsg_writes_own_slot_witness :
    (updateMsg (bound KONTROL 0 1) 23 127).joy_msg.buttons[0]? = some 1 ∧
    (updateMsg (bound KONTROL 0 1) 23 127).joy_msg.axes = (bound KONTROL 0 1).joy_msg.axes :=
  have h := (updateMsg_writes_own_slot KONTROL 0 1 [] 23 127).2 0 (by decide)
  ⟨h.1, h.2.2⟩

/-- C3: in every state the node reaches from a bound object of either variant, `updateMsg`
with a control id that is in neither table of the variant leaves the whole message (axes,
buttons, header with frame id) unchanged, whatever the value byte. -/
theorem updateMsg_unmapped (t : KONTROL_TYPE) (port : Nat) (sr : Int) (evs : List (Nat × Nat))
    (id v : Nat) (ha : id ∉ axisMapping t) (hb : id ∉ buttonMapping t) :
    (updateMsg (applyAll (bound t port sr) evs) id v).joy_msg =
      (applyAll (bound t port sr) evs).joy_msg := by
  have hw := wired_applyAll t evs _ (wired_bound t port sr)
  obtain ⟨h1, h2⟩ := wired_neither t _ hw id ha hb
  rw [updateMsg_neither _ id v h1 h2]

/-- Witness for C3: under KONTROL the control id 99 is in neither table, and the event
(99, 5) leaves the message as two earlier events made it. -/
theorem updateMsg_unmapped_witness :
    99 ∉ axisMapping KONTROL ∧ 99 ∉ buttonMapping KONTROL ∧
    (updateMsg (applyAll (bound KONTROL 0 1) [(2, 64), (23, 1)]) 99 5).joy_msg =
      (applyAll (bound KONTROL 0 1) [(2, 64), (23, 1)]).joy_msg :=
  ⟨by decide, by decide, updateMsg_unmapped KONTROL 0 1 [(2, 64), (23, 1)] 99 5 (by decide) (by decide)⟩

/-! ## The applied flag -/

/-- C4 (as stated, at a concrete tick): under KONTROL the single frame `[176, 99, 5]` carries
the control id 99, which is in neither table; the flag is nevertheless raised and the message
is published. -/
theorem applied_flag_unmapped_counterexample :
    ¬ ((getMessage (bound KONTROL 0 1) [[176, 99, 5]] 0).update = true ↔
        ∃ m ∈ [[176, 99, 5]], ∃ b1 b2 : Nat, controlChange m = some (b1, b2) ∧
          (b1 ∈ axisMapping KONTROL ∨ b1 ∈ buttonMapping KONTROL)) ∧
    (getMessage (bound KONTROL 0 1) [[176, 99, 5]] 0).update = true ∧
    (getMessage (bound KONTROL 0 1) [[176, 99, 5]] 0).published ≠ [] := by
  have hu : (getMessage (bound KONTROL 0 1) [[176, 99, 5]] 0).update = true := by decide
  refine ⟨?_, hu, by decide⟩
  intro h
  obtain ⟨m, hm, b1, b2, hc, hmap⟩ := h.mp hu
  rw [List.mem_singleton] at hm
  subst hm
  have e : b1 = 99 := by
    have : controlChange [176, 99, 5] = some (99, 5) := by decide
    rw [this] at hc
    injection hc with hc
    injection hc with h1 h2
    exact h1.symm
  subst e
  revert hmap
  decide

/-- C4 (amended): for every tick the flag `update` is true exactly when at least one of the
drained frames (the frames of the queue before the first empty one) has three bytes with
first byte 176, whether or not its control id is in a table of the variant; the message is
published, once and stamped with the current time, exactly when the flag is true, and nothing
is published when it is false. -/
theorem applied_flag_iff_accepted (k : Kontrol) (queue : List (List Nat)) (now : Nat) :
    ((getMessage k queue now).update = true ↔
      ∃ m ∈ queue.takeWhile (fun m => decide (m.length > 0)),
        ∃ b1 b2 : Nat, m = [176, b1, b2]) ∧
    ((getMessage k queue now).update = true →
      (getMessage k queue now).published = [(getMessage k queue now).kontrol.joy_msg] ∧
      (getMessage k queue now).kontrol.joy_msg.header.stamp = now) ∧
    ((getMessage k queue now).update = false → (getMessage k queue now).published = []) := by
  have hflag : (getMessage k queue now).update = (drain k false queue).2.1 := by
    unfold getMessage
    by_cases h : (drain k false queue).2.1 = true <;> simp [h]
  refine ⟨?_, ?_, ?_⟩
  · rw [hflag, drain_flag]
    simp only [Bool.false_or, List.any_eq_true]
    constructor
    · rintro ⟨m, hm, hs⟩
      cases hc : controlChange m with
      | none => simp [hc] at hs
      | some e => exact ⟨m, hm, e.1, e.2, (controlChange_eq_some_iff m e.1 e.2).mp hc⟩
    · rintro ⟨m, hm, b1, b2, e⟩
      exact ⟨m, hm, by rw [(controlChange_eq_some_iff m b1 b2).mpr e]; rfl⟩
  · intro h
    rw [hflag] at h
    unfold getMessage
    simp [h]
  · intro h
    rw [hflag] at h
    unfold getMessage
    simp [h]

/-! ## Device selection -/

theorem getPortName_of_get (ports : List String) (i : Nat) (name : String)
    (h : ports[i]? = some name) : getPortName ports i = name := by
  simp [getPortName, List.getD_eq_getElem?_getD, h]

theorem setType_port (ports : List String) (k : Kontrol) : (setType ports k).port = k.port := by
  by_cases h : find (getPortName ports k.port) "nanoKONTROL2" = none <;> simp [setType, h]

theorem setType_type (ports : List String) (k : Kontrol) :
    (setType ports k).type =
      if find (getPortName ports k.port) "nanoKONTROL2" ≠ none then KONTROL2 else KONTROL := by
  by_cases h : find (getPortName ports k.port) "nanoKONTROL2" = none <;> simp [setType, h]

/-- C5: without an override (`portn < 0`), when some port name contains "nanoKONTROL", the
selected port is the smallest index whose name contains "nanoKONTROL", and the variant is
KONTROL2 if that name contains "nanoKONTROL2" and KONTROL otherwise. -/
theorem selectDevice_scan (ports : List String) (portn : Int) (k : Kontrol)
    (hn : portn < 0) (hlen : ports.length < 4294967296)
    (hex : ∃ name ∈ ports, find name "nanoKONTROL" ≠ none) :
    ∃ (i : Nat) (name : String), ports[i]? = some name ∧ find name "nanoKONTROL" ≠ none ∧
      (∀ (j : Nat) (other : String), j < i → ports[j]? = some other →
        find other "nanoKONTROL" = none) ∧
      (selectDevice ports portn k).port = i ∧
      (selectDevice ports portn k).type =
        if find name "nanoKONTROL2" ≠ none then KONTROL2 else KONTROL := by
  obtain ⟨i, name, h1, h2, h3, h4⟩ := findKontrolPortLoop_first ports 0 hex
  have hi : i < ports.length := (List.getElem?_eq_some_iff.mp h1).1
  have hport : toUInt32 (findKontrolPort ports) = i := by
    unfold findKontrolPort
    rw [h4, Nat.zero_add]
    exact toUInt32_toInt32 i (by omega)
  refine ⟨i, name, h1, h2, h3, ?_, ?_⟩
  · simp only [selectDevice, hn, if_true, setType_port, hport]
  · simp only [selectDevice, hn, if_true, setType_type, hport, getPortName_of_get ports i name h1]

/-- Witness for C5: the ports "Generic MIDI", "nanoKONTROL2 SLIDER/KNOB" select index 1 and
KONTROL2. -/
theorem selectDevice_scan_witness :
    (selectDevice ["Generic MIDI", "nanoKONTROL2 SLIDER/KNOB"] (-1) Kontrol.blank).port = 1 ∧
    (selectDevice ["Generic MIDI", "nanoKONTROL2 SLIDER/KNOB"] (-1) Kontrol.blank).type = KONTROL2 ∧
    ∃ (i : Nat) (name : String),
      ["Generic MIDI", "nanoKONTROL2 SLIDER/KNOB"][i]? = some name ∧
      find name "nanoKONTROL" ≠ none ∧
      (∀ (j : Nat) (other : String), j < i →
        ["Generic MIDI", "nanoKONTROL2 SLIDER/KNOB"][j]? = some other →
        find other "nanoKONTROL" = none) ∧
      (selectDevice ["Generic MIDI", "nanoKONTROL2 SLIDER/KNOB"] (-1) Kontrol.blank).port = i ∧
      (selectDevice ["Generic MIDI", "nanoKONTROL2 SLIDER/KNOB"] (-1) Kontrol.blank).type =
        if find name "nanoKONTROL2" ≠ none then KONTROL2 else KONTROL :=
  ⟨by decide, by decide,
    selectDevice_scan ["Generic MIDI", "nanoKONTROL2 SLIDER/KNOB"] (-1) Kontrol.blank (by decide)
      (by decide) ⟨"nanoKONTROL2 SLIDER/KNOB", by decide, by decide⟩⟩

/-- C6: with an override `portn ≥ 0` that is a valid port index, the selected port is `portn`
itself and the variant depends on the name of that port only: KONTROL2 if it contains
"nanoKONTROL2" (such a name contains "nanoKONTROL" as well), KONTROL for every other name.
No other port name enters the result. -/
theorem selectDevice_override (ports : List String) (portn : Int) (k : Kontrol)
    (h0 : 0 ≤ portn) (h1 : portn < ports.length) (h2 : portn < 2147483648) :
    (selectDevice ports portn k).port = portn.toNat ∧
    ∃ name : String, ports[portn.toNat]? = some name ∧
      (selectDevice ports portn k).type =
        (if find name "nanoKONTROL2" ≠ none then KONTROL2 else KONTROL) ∧
      (find name "nanoKONTROL2" ≠ none →
        find name "nanoKONTROL" ≠ none ∧ (selectDevice ports portn k).type = KONTROL2) ∧
      (find name "nanoKONTROL2" = none → (selectDevice ports portn k).type = KONTROL) ∧
      ∀ others : List String, others[portn.toNat]? = some name →
        (selectDevice others portn k).port = (selectDevice ports portn k).port ∧
        (selectDevice others portn k).type = (selectDevice ports portn k).type := by
  have hlt : portn.toNat < ports.length := by omega
  have hnot : ¬ portn < 0 := by omega
  have hport : toUInt32 portn = portn.toNat := toUInt32_of_nonneg portn h0 (by omega)
  have hget : ports[portn.toNat]? = some (ports[portn.toNat]) := List.getElem?_eq_getElem hlt
  have hsel : ∀ l : List String, l[portn.toNat]? = some (ports[portn.toNat]) →
      (selectDevice l portn k).port = portn.toNat ∧
      (selectDevice l portn k).type =
        (if find (ports[portn.toNat]) "nanoKONTROL2" ≠ none then KONTROL2 else KONTROL) := by
    intro l hl
    constructor
    · simp only [selectDevice, hnot, if_false, setType_port, hport]
    · simp only [selectDevice, hnot, if_false, setType_type, hport,
        getPortName_of_get l _ _ hl]
  obtain ⟨hp, ht⟩ := hsel ports hget
  refine ⟨hp, ports[portn.toNat], hget, ht, ?_, ?_, ?_⟩
  · intro h
    exact ⟨find_nanoKONTROL_of_2 _ h, by rw [ht, if_pos h]⟩
  · intro h
    rw [ht]
    simp [h]
  · intro others ho
    obtain ⟨hp', ht'⟩ := hsel others ho
    exact ⟨hp'.trans hp.symm, ht'.trans ht.symm⟩

/-- Witness for C6: the ports "Generic MIDI", "nanoKONTROL2 SLIDER/KNOB" with override 0
select index 0 and KONTROL. -/
theorem selectDevice_override_witness :
    (selectDevice ["Generic MIDI", "nanoKONTROL2 SLIDER/KNOB"] 0 Kontrol.blank).port = 0 ∧
    (selectDevice ["Generic MIDI", "nanoKONTROL2 SLIDER/KNOB"] 0 Kontrol.blank).type = KONTROL ∧
    (selectDevice ["Generic MIDI", "nanoKONTROL2 SLIDER/KNOB"] 0 Kontrol.blank).port =
      (0 : Int).toNat :=
  ⟨by decide, by decide,
    (selectDevice_override ["Generic MIDI", "nanoKONTROL2 SLIDER/KNOB"] 0 Kontrol.blank
      (by decide) (by decide) (by decide)).1⟩

/-- C7 (the code at the failing inputs): with no override and no port name containing
"nanoKONTROL" (an empty port list, or the single port "Generic MIDI"), `findKontrolPort`
returns `-1`, and the constructor goes on all the same: it stores `-1` in the unsigned member
`port`, which becomes 4294967295, and `setType` selects the variant KONTROL. -/
theorem selectDevice_no_device_defaults :
    findKontrolPort [] = -1 ∧
    (selectDevice [] (-1) Kontrol.blank).port = 4294967295 ∧
    (selectDevice [] (-1) Kontrol.blank).type = KONTROL ∧
    findKontrolPort ["Generic MIDI"] = -1 ∧
    (selectDevice ["Generic MIDI"] (-1) Kontrol.blank).port = 4294967295 ∧
    (selectDevice ["Generic MIDI"] (-1) Kontrol.blank).type = KONTROL := by
  refine ⟨by decide, by decide, by decide, by decide, by decide, by decide⟩

theorem selectDevice_eq (ports : List String) (portn : Int) (k : Kontrol) :
    selectDevice ports portn k =
      { k with port := (selectDevice ports portn k).port, type := (selectDevice ports portn k).type } := by
  by_cases hn : portn < 0 <;>
    by_cases h : find (getPortName ports (toUInt32 (findKontrolPort ports))) "nanoKONTROL2" = none <;>
    by_cases h' : find (getPortName ports (toUInt32 portn)) "nanoKONTROL2" = none <;>
    simp [selectDevice, setType, hn, h, h']

theorem construct_eq_bound (ports : List String) (portn : Int) (openPort : Nat → Bool)
    (slider_param : Option Int) :
    Kontrol.construct ports portn openPort slider_param =
      if openPort (selectDevice ports portn Kontrol.blank).port then
        some (bound (selectDevice ports portn Kontrol.blank).type
          (selectDevice ports portn Kontrol.blank).port (slider_param.getD 1))
      else none := by
  unfold Kontrol.construct bound
  rw [selectDevice_eq]

theorem written_axis (t : KONTROL_TYPE) (port : Nat) (sr : Int) (evs : List (Nat × Nat))
    (i id v : Nat) (hi : (axisMapping t)[i]? = some id) :
    (updateMsg (applyAll (bound t port sr) evs) id v).joy_msg.axes[i]? = some (axisValue sr v) := by
  have hw := wired_applyAll t evs _ (wired_bound t port sr)
  have hsr : (applyAll (bound t port sr) evs).slider_range = sr := slider_range_applyAll evs _
  obtain ⟨h1, h2, h3⟩ := wired_axis t _ hw id i hi
  rw [updateMsg_axis _ id v i h1 h2, hsr]
  simp [h3]

theorem written_button (t : KONTROL_TYPE) (port : Nat) (sr : Int) (evs : List (Nat × Nat))
    (j id v : Nat) (hj : (buttonMapping t)[j]? = some id) :
    (updateMsg (applyAll (bound t port sr) evs) id v).joy_msg.buttons[j]? =
      some (if v > 0 then (1 : Int) else 0) := by
  have hw := wired_applyAll t evs _ (wired_bound t port sr)
  obtain ⟨h1, h2, h3⟩ := wired_button t _ hw id j hj
  rw [updateMsg_button _ id v j h1 h2]
  simp [h3]

/-- C8: under the centered policy (`slider_range ≠ 0`), for a raw byte `v` in 0..127 and an
axis control id at position `i`, `updateMsg` stores `(v - 63.5) / 63.5` in `axes[i]`; the
stored value lies in [-1.01, 1.01], is never 0, is negative for 63 and positive for 64. -/
theorem updateMsg_centered (t : KONTROL_TYPE) (port : Nat) (sr : Int) (evs : List (Nat × Nat))
    (i id v : Nat) (hsr : sr ≠ 0) (hi : (axisMapping t)[i]? = some id) (hv : v ≤ 127) :
    ∃ x : ℚ, (updateMsg (applyAll (bound t port sr) evs) id v).joy_msg.axes[i]? = some x ∧
      x = ((v : ℚ) - 63.5) / 63.5 ∧ -1.01 ≤ x ∧ x ≤ 1.01 ∧ x ≠ 0 ∧
      (v = 63 → x < 0) ∧ (v = 64 → 0 < x) := by
  refine ⟨((v : ℚ) - 63.5) / 63.5, ?_, rfl, ?_, ?_, ?_, ?_, ?_⟩
  · rw [written_axis t port sr evs i id v hi]
    simp [axisValue, hsr]
  · have h0 : (0 : ℚ) ≤ v := Nat.cast_nonneg v
    rw [le_div_iff₀ (by norm_num)]
    norm_num
    linarith
  · have h1 : (v : ℚ) ≤ 127 := by exact_mod_cast hv
    rw [div_le_iff₀ (by norm_num)]
    norm_num
    linarith
  · intro h
    rw [div_eq_zero_iff] at h
    rcases h with h | h
    · have h2 : (2 * v : ℚ) = 127 := by
        norm_num at h
        linarith
      have h3 : 2 * v = 127 := by exact_mod_cast h2
      omega
    · norm_num at h
  · intro e
    subst e
    norm_num
  · intro e
    subst e
    norm_num

/-- Witness for C8: under KONTROL with `slider_range = 1`, control id 2 (axis 0), raw 64. -/
theorem updateMsg_centered_witness :
    ∃ x : ℚ, (updateMsg (applyAll (bound KONTROL 0 1) []) 2 64).joy_msg.axes[0]? = some x ∧
      x = ((64 : Nat) - 63.5) / 63.5 ∧ -1.01 ≤ x ∧ x ≤ 1.01 ∧ x ≠ 0 ∧
      ((64 : Nat) = 63 → x < 0) ∧ ((64 : Nat) = 64 → 0 < x) :=
  updateMsg_centered KONTROL 0 1 [] 0 2 64 (by decide) (by decide) (by decide)

/-- C9: under the unipolar policy (`slider_range = 0`), for raw bytes `v ≤ w` in 0..127 and an
axis control id at position `i`, `updateMsg` stores `v / 127` (resp. `w / 127`) in `axes[i]`;
the stored values lie in [0, 1], 0 is stored for 0 and 1 for 127, and the stored value does
not decrease when the raw byte grows. -/
theorem updateMsg_unipolar (t : KONTROL_TYPE) (port : Nat) (evs : List (Nat × Nat))
    (i id v w : Nat) (hi : (axisMapping t)[i]? = some id) (hvw : v ≤ w) (hw : w ≤ 127) :
    ∃ x y : ℚ, (updateMsg (applyAll (bound t port 0) evs) id v).joy_msg.axes[i]? = some x ∧
      (updateMsg (applyAll (bound t port 0) evs) id w).joy_msg.axes[i]? = some y ∧
      x = (v : ℚ) / 127 ∧ y = (w : ℚ) / 127 ∧ 0 ≤ x ∧ x ≤ y ∧ y ≤ 1 ∧
      (v = 0 → x = 0) ∧ (w = 127 → y = 1) := by
  have hv0 : (0 : ℚ) ≤ v := Nat.cast_nonneg v
  have hvw' : (v : ℚ) ≤ w := by exact_mod_cast hvw
  have hw' : (w : ℚ) ≤ 127 := by exact_mod_cast hw
  refine ⟨(v : ℚ) / 127, (w : ℚ) / 127, ?_, ?_, rfl, rfl, ?_, ?_, ?_, ?_, ?_⟩
  · rw [written_axis t port 0 evs i id v hi]
    norm_num [axisValue]
  · rw [written_axis t port 0 evs i id w hi]
    norm_num [axisValue]
  · positivity
  · exact div_le_div_of_nonneg_right hvw' (by norm_num)
  · rw [div_le_one (by norm_num)]
    exact hw'
  · intro e
    subst e
    norm_num
  · intro e
    subst e
    norm_num

/-- Witness for C9: under KONTROL2 with `slider_range = 0`, control id 16 (axis 8), raw bytes
0 and 127. -/
theorem updateMsg_unipolar_witness :
    ∃ x y : ℚ, (updateMsg (applyAll (bound KONTROL2 0 0) []) 16 0).joy_msg.axes[8]? = some x ∧
      (updateMsg (applyAll (bound KONTROL2 0 0) []) 16 127).joy_msg.axes[8]? = some y ∧
      x = ((0 : Nat) : ℚ) / 127 ∧ y = ((127 : Nat) : ℚ) / 127 ∧ 0 ≤ x ∧ x ≤ y ∧ y ≤ 1 ∧
      ((0 : Nat) = 0 → x = 0) ∧ ((127 : Nat) = 127 → y = 1) :=
  updateMsg_unipolar KONTROL2 0 [] 8 16 0 127 (by decide) (by decide) (by decide)

/-- C10: for a button control id at position `j` and any raw byte `v`, `updateMsg` stores in
`buttons[j]` a value that is 1 exactly when `v > 0` and 0 exactly when `v = 0`; so raw 0 gives
0, every `v` in 1..127 gives 1, and the stored value is always 0 or 1. -/
theorem updateMsg_button_value (t : KONTROL_TYPE) (port : Nat) (sr : Int)
    (evs : List (Nat × Nat)) (j id v : Nat) (hj : (buttonMapping t)[j]? = some id) :
    ∃ b : Int, (updateMsg (applyAll (bound t port sr) evs) id v).joy_msg.buttons[j]? = some b ∧
      (b = 1 ↔ v > 0) ∧ (b = 0 ↔ v = 0) ∧ (b = 0 ∨ b = 1) ∧
      (1 ≤ v ∧ v ≤ 127 → b = 1) := by
  refine ⟨if v > 0 then 1 else 0, written_button t port sr evs j id v hj, ?_, ?_, ?_, ?_⟩ <;>
    by_cases h : v > 0 <;> simp [h] <;> omega

/-- Witness for C10: under KONTROL, control id 33 (button 1), raw 5. -/
theorem updateMsg_button_value_witness :
    ∃ b : Int, (updateMsg (applyAll (bound KONTROL 0 1) [(33, 0)]) 33 5).joy_msg.buttons[1]? = some b ∧
      (b = 1 ↔ 5 > 0) ∧ (b = 0 ↔ 5 = 0) ∧ (b = 0 ∨ b = 1) ∧ (1 ≤ 5 ∧ 5 ≤ 127 → b = 1) :=
  updateMsg_button_value KONTROL 0 1 [(33, 0)] 1 33 5 (by decide)

/-! ## Auxiliary lemmas on ticks and sequences of events -/

theorem updateMsg_axes_eq (k : Kontrol) (b1 b2 : Nat) :
    (updateMsg k b1 b2).joy_msg.axes =
      match k.axis_map b1 with
      | some p => k.joy_msg.axes.set p (axisValue k.slider_range b2)
      | none => k.joy_msg.axes := by
  cases h1 : k.axis_map b1 <;> cases h2 : k.button_map b1 <;>
    by_cases hs : k.slider_range = 0 <;> simp [updateMsg, axisValue, h1, h2, hs]

theorem updateMsg_buttons_eq (k : Kontrol) (b1 b2 : Nat) :
    (updateMsg k b1 b2).joy_msg.buttons =
      match k.button_map b1 with
      | some p => k.joy_msg.buttons.set p (if b2 > 0 then 1 else 0)
      | none => k.joy_msg.buttons := by
  cases h1 : k.axis_map b1 <;> cases h2 : k.button_map b1 <;>
    by_cases hs : k.slider_range = 0 <;> simp [updateMsg, h1, h2, hs]

theorem applyAll_cons (k : Kontrol) (e : Nat × Nat) (evs : List (Nat × Nat)) :
    applyAll k (e :: evs) = applyAll (updateMsg k e.1 e.2) evs := rfl

theorem applyAll_append (k : Kontrol) (evs more : List (Nat × Nat)) :
    applyAll k (evs ++ more) = applyAll (applyAll k evs) more := by
  simp [applyAll, List.foldl_append]

theorem applyAll_frame (evs : List (Nat × Nat)) (k : Kontrol) :
    (applyAll k evs).axis_map = k.axis_map ∧ (applyAll k evs).button_map = k.button_map ∧
    (applyAll k evs).slider_range = k.slider_range ∧ (applyAll k evs).type = k.type ∧
    (applyAll k evs).port = k.port ∧ (applyAll k evs).joy_msg.header = k.joy_msg.header ∧
    (applyAll k evs).joy_msg.axes.length = k.joy_msg.axes.length ∧
    (applyAll k evs).joy_msg.buttons.length = k.joy_msg.buttons.length := by
  induction evs generalizing k with
  | nil => exact ⟨rfl, rfl, rfl, rfl, rfl, rfl, rfl, rfl⟩
  | cons e rest ih =>
    obtain ⟨a1, a2, a3, a4, a5, a6, a7, a8⟩ := ih (updateMsg k e.1 e.2)
    obtain ⟨f1, f2, f3, f4, f5, f6, f7, f8⟩ := updateMsg_frame k e.1 e.2
    exact ⟨a1.trans f1, a2.trans f2, a3.trans f3, a4.trans f4, a5.trans f5, a6.trans f6,
      a7.trans f7, a8.trans f8⟩

theorem drain_state (queue : List (List Nat)) (k : Kontrol) (update : Bool) :
    (drain k update queue).1 = applyAll k (drained queue) := by
  induction queue generalizing k update with
  | nil => simp [drain, loopBody, controlChange_nil, drained, applyAll]
  | cons m rest ih =>
    by_cases hm : m.length > 0
    · simp only [drain, hm, if_true, drained, List.takeWhile_cons, decide_True]
      rw [ih]
      cases hc : controlChange m with
      | none => simp [loopBody, hc, drained, List.filterMap_cons]
      | some e => simp [loopBody, hc, drained, List.filterMap_cons, applyAll]
    · have e : m = [] := List.length_eq_zero.mp (by omega)
      subst e
      simp [drain, loopBody, controlChange_nil, drained, applyAll]

theorem drain_rest_of_nonempty (queue : List (List Nat)) (k : Kontrol) (update : Bool)
    (hq : ∀ m ∈ queue, m ≠ []) : (drain k update queue).2.2 = [] := by
  induction queue generalizing k update with
  | nil => rfl
  | cons m rest ih =>
    have hm : m.length > 0 := List.length_pos.mpr (hq m (List.mem_cons_self _ _))
    simp only [drain, hm, if_true]
    exact ih _ _ (fun x hx => hq x (List.mem_cons_of_mem _ hx))

theorem drained_of_nonempty (queue : List (List Nat)) (hq : ∀ m ∈ queue, m ≠ []) :
    drained queue = queue.filterMap controlChange := by
  unfold drained
  congr 1
  rw [List.takeWhile_eq_self_iff]
  intro m hm
  simpa using List.length_pos.mpr (hq m hm)

theorem getMessage_kontrol (k : Kontrol) (queue : List (List Nat)) (now : Nat) :
    (getMessage k queue now).kontrol.joy_msg.axes = (applyAll k (drained queue)).joy_msg.axes ∧
    (getMessage k queue now).kontrol.joy_msg.buttons = (applyAll k (drained queue)).joy_msg.buttons ∧
    (getMessage k queue now).kontrol.joy_msg.header.frame_id = k.joy_msg.header.frame_id ∧
    (getMessage k queue now).kontrol.axis_map = k.axis_map ∧
    (getMessage k queue now).kontrol.button_map = k.button_map ∧
    (getMessage k queue now).kontrol.slider_range = k.slider_range ∧
    (getMessage k queue now).kontrol.type = k.type ∧
    (getMessage k queue now).kontrol.port = k.port ∧
    (getMessage k queue now).queue = (drain k false queue).2.2 ∧
    (getMessage k queue now).update = (drain k false queue).2.1 := by
  obtain ⟨a1, a2, a3, a4, a5, a6, -, -⟩ := applyAll_frame (drained queue) k
  have hd := drain_state queue k false
  unfold getMessage
  by_cases h : (drain k false queue).2.1 = true <;> simp [h, hd, a1, a2, a3, a4, a5, a6]

theorem getMessage_published (k : Kontrol) (queue : List (List Nat)) (now : Nat) :
    ((getMessage k queue now).update = true ∧
      (getMessage k queue now).published = [(getMessage k queue now).kontrol.joy_msg] ∧
      (getMessage k queue now).kontrol.joy_msg.header.stamp = now) ∨
    ((getMessage k queue now).update = false ∧ (getMessage k queue now).published = [] ∧
      (getMessage k queue now).kontrol.joy_msg.header.stamp = k.joy_msg.header.stamp) := by
  have hd := drain_state queue k false
  have hh := (applyAll_frame (drained queue) k).2.2.2.2.2.1
  unfold getMessage
  by_cases h : (drain k false queue).2.1 = true <;> simp [h, hd, hh]

theorem drained_ne_nil_iff (queue : List (List Nat)) :
    drained queue ≠ [] ↔
      ∃ m ∈ queue.takeWhile (fun m => decide (m.length > 0)), ∃ b1 b2 : Nat, m = [176, b1, b2] := by
  unfold drained
  constructor
  · intro h
    obtain ⟨e, he⟩ := List.exists_mem_of_ne_nil _ h
    obtain ⟨m, hm, hc⟩ := List.mem_filterMap.mp he
    exact ⟨m, hm, e.1, e.2, (controlChange_eq_some_iff m e.1 e.2).mp hc⟩
  · rintro ⟨m, hm, b1, b2, e⟩ hnil
    have : (b1, b2) ∈ List.filterMap controlChange
        (queue.takeWhile (fun m => decide (m.length > 0))) :=
      List.mem_filterMap.mpr ⟨m, hm, (controlChange_eq_some_iff m b1 b2).mpr e⟩
    rw [hnil] at this
    exact absurd this (List.not_mem_nil _)

theorem update_iff_drained (k : Kontrol) (queue : List (List Nat)) (now : Nat) :
    (getMessage k queue now).update = true ↔ drained queue ≠ [] := by
  rw [(getMessage_kontrol k queue now).2.2.2.2.2.2.2.2.2, drain_flag, drained_ne_nil_iff]
  simp only [Bool.false_or, List.any_eq_true]
  constructor
  · rintro ⟨m, hm, hs⟩
    cases hc : controlChange m with
    | none => simp [hc] at hs
    | some e => exact ⟨m, hm, e.1, e.2, (controlChange_eq_some_iff m e.1 e.2).mp hc⟩
  · rintro ⟨m, hm, b1, b2, e⟩
    exact ⟨m, hm, by rw [(controlChange_eq_some_iff m b1 b2).mpr e]; rfl⟩

theorem wired_axis_inv (t : KONTROL_TYPE) (k : Kontrol) (h : Wired t k) (b1 p : Nat)
    (hp : k.axis_map b1 = some p) : (axisMapping t)[p]? = some b1 := by
  by_cases hm : b1 ∈ axisMapping t
  · obtain ⟨q, hq⟩ := List.mem_iff_getElem?.mp hm
    have := (wired_axis t k h b1 q hq).1
    rw [hp] at this
    injection this with e
    rw [e]
    exact hq
  · rw [h.1, bindLoop_of_not_mem _ _ _ _ hm] at hp
    exact Option.noConfusion hp

theorem wired_button_inv (t : KONTROL_TYPE) (k : Kontrol) (h : Wired t k) (b1 p : Nat)
    (hp : k.button_map b1 = some p) : (buttonMapping t)[p]? = some b1 := by
  by_cases hm : b1 ∈ buttonMapping t
  · obtain ⟨q, hq⟩ := List.mem_iff_getElem?.mp hm
    have := (wired_button t k h b1 q hq).2.1
    rw [hp] at this
    injection this with e
    rw [e]
    exact hq
  · rw [h.2.1, bindLoop_of_not_mem _ _ _ _ hm] at hp
    exact Option.noConfusion hp

theorem axis_slot_after (t : KONTROL_TYPE) (k : Kontrol) (h : Wired t k) (i id b1 b2 : Nat)
    (hi : (axisMapping t)[i]? = some id) :
    (updateMsg k b1 b2).joy_msg.axes[i]? =
      if b1 = id then some (axisValue k.slider_range b2) else k.joy_msg.axes[i]? := by
  rw [updateMsg_axes_eq]
  by_cases e : b1 = id
  · subst e
    obtain ⟨h1, -, h3⟩ := wired_axis t k h b1 i hi
    simp [h1, h3]
  · rw [if_neg e]
    cases hp : k.axis_map b1 with
    | none => rfl
    | some p =>
      have hne : p ≠ i := by
        rintro rfl
        have := wired_axis_inv t k h b1 p hp
        rw [hi] at this
        injection this with e'
        exact e e'.symm
      simp [List.getElem?_set, hne]

theorem button_slot_after (t : KONTROL_TYPE) (k : Kontrol) (h : Wired t k) (j id b1 b2 : Nat)
    (hj : (buttonMapping t)[j]? = some id) :
    (updateMsg k b1 b2).joy_msg.buttons[j]? =
      if b1 = id then some (if b2 > 0 then (1 : Int) else 0) else k.joy_msg.buttons[j]? := by
  rw [updateMsg_buttons_eq]
  by_cases e : b1 = id
  · subst e
    obtain ⟨-, h2, h3⟩ := wired_button t k h b1 j hj
    simp [h2, h3]
  · rw [if_neg e]
    cases hp : k.button_map b1 with
    | none => rfl
    | some p =>
      have hne : p ≠ j := by
        rintro rfl
        have := wired_button_inv t k h b1 p hp
        rw [hj] at this
        injection this with e'
        exact e e'.symm
      simp [List.getElem?_set, hne]

theorem joy_eq (a b : Joy) (h1 : a.header = b.header) (h2 : a.axes = b.axes)
    (h3 : a.buttons = b.buttons) : a = b := by
  cases a
  cases b
  simp_all

theorem updateMsg_comm (t : KONTROL_TYPE) (k : Kontrol) (h : Wired t k) (id1 v1 id2 v2 : Nat)
    (hne : id1 ≠ id2) :
    (updateMsg (updateMsg k id1 v1) id2 v2).joy_msg =
      (updateMsg (updateMsg k id2 v2) id1 v1).joy_msg := by
  obtain ⟨f1, f2, f3, -, -, f6, -, -⟩ := updateMsg_frame k id1 v1
  obtain ⟨g1, g2, g3, -, -, g6, -, -⟩ := updateMsg_frame k id2 v2
  apply joy_eq
  · rw [(updateMsg_frame (updateMsg k id1 v1) id2 v2).2.2.2.2.2.1,
      (updateMsg_frame (updateMsg k id2 v2) id1 v1).2.2.2.2.2.1, f6, g6]
  · rw [updateMsg_axes_eq (updateMsg k id1 v1), updateMsg_axes_eq (updateMsg k id2 v2),
      f1, g1, f3, g3, updateMsg_axes_eq k id1 v1, updateMsg_axes_eq k id2 v2]
    cases h1 : k.axis_map id1 with
    | none => cases h2 : k.axis_map id2 <;> rfl
    | some p1 =>
      cases h2 : k.axis_map id2 with
      | none => rfl
      | some p2 =>
        have hp : p1 ≠ p2 := by
          rintro rfl
          have a := wired_axis_inv t k h id1 p1 h1
          rw [wired_axis_inv t k h id2 p1 h2] at a
          injection a with e
          exact hne e.symm
        exact List.set_comm _ _ _ hp
  · rw [updateMsg_buttons_eq (updateMsg k id1 v1), updateMsg_buttons_eq (updateMsg k id2 v2),
      f2, g2, updateMsg_buttons_eq k id1 v1, updateMsg_buttons_eq k id2 v2]
    cases h1 : k.button_map id1 with
    | none => cases h2 : k.button_map id2 <;> rfl
    | some p1 =>
      cases h2 : k.button_map id2 with
      | none => rfl
      | some p2 =>
        have hp : p1 ≠ p2 := by
          rintro rfl
          have a := wired_button_inv t k h id1 p1 h1
          rw [wired_button_inv t k h id2 p1 h2] at a
          injection a with e
          exact hne e.symm
        exact List.set_comm _ _ _ hp

theorem updateMsg_idem (k : Kontrol) (id v : Nat) :
    (updateMsg (updateMsg k id v) id v).joy_msg = (updateMsg k id v).joy_msg := by
  obtain ⟨f1, f2, f3, -, -, f6, -, -⟩ := updateMsg_frame k id v
  apply joy_eq
  · rw [(updateMsg_frame _ id v).2.2.2.2.2.1]
  · rw [updateMsg_axes_eq (updateMsg k id v), f1, f3, updateMsg_axes_eq k id v]
    cases h1 : k.axis_map id with
    | none => rfl
    | some p => exact List.set_set _ _ _ _
  · rw [updateMsg_buttons_eq (updateMsg k id v), f2, updateMsg_buttons_eq k id v]
    cases h1 : k.button_map id with
    | none => rfl
    | some p => exact List.set_set _ _ _ _

theorem applyAll_snoc (k : Kontrol) (evs : List (Nat × Nat)) (e : Nat × Nat) :
    applyAll k (evs ++ [e]) = updateMsg (applyAll k evs) e.1 e.2 := by
  simp [applyAll, List.foldl_append]

theorem axis_slot_applyAll (t : KONTROL_TYPE) (k : Kontrol) (h : Wired t k) (i id : Nat)
    (hi : (axisMapping t)[i]? = some id) (evs : List (Nat × Nat)) :
    (applyAll k evs).joy_msg.axes[i]? =
      match evs.reverse.find? (fun e => decide (e.1 = id)) with
      | some e => some (axisValue k.slider_range e.2)
      | none => k.joy_msg.axes[i]? := by
  induction evs using List.reverseRecOn with
  | nil => rfl
  | append_singleton evs e ih =>
    rw [applyAll_snoc, axis_slot_after t _ (wired_applyAll t evs k h) i id e.1 e.2 hi,
      slider_range_applyAll, List.reverse_append, List.reverse_singleton, List.singleton_append]
    by_cases he : e.1 = id
    · simp [he]
    · rw [if_neg he, List.find?_cons_of_neg _ (by simpa using he)]
      exact ih

theorem button_slot_applyAll (t : KONTROL_TYPE) (k : Kontrol) (h : Wired t k) (j id : Nat)
    (hj : (buttonMapping t)[j]? = some id) (evs : List (Nat × Nat)) :
    (applyAll k evs).joy_msg.buttons[j]? =
      match evs.reverse.find? (fun e => decide (e.1 = id)) with
      | some e => some (if e.2 > 0 then (1 : Int) else 0)
      | none => k.joy_msg.buttons[j]? := by
  induction evs using List.reverseRecOn with
  | nil => rfl
  | append_singleton evs e ih =>
    rw [applyAll_snoc, button_slot_after t _ (wired_applyAll t evs k h) j id e.1 e.2 hj,
      List.reverse_append, List.reverse_singleton, List.singleton_append]
    by_cases he : e.1 = id
    · simp [he]
    · rw [if_neg he, List.find?_cons_of_neg _ (by simpa using he)]
      exact ih

theorem applyAll_buttons_congr (evs : List (Nat × Nat)) (k1 k2 : Kontrol)
    (hm : k1.button_map = k2.button_map) (hb : k1.joy_msg.buttons = k2.joy_msg.buttons) :
    (applyAll k1 evs).joy_msg.buttons = (applyAll k2 evs).joy_msg.buttons := by
  induction evs generalizing k1 k2 with
  | nil => exact hb
  | cons e rest ih =>
    apply ih
    · rw [(updateMsg_frame k1 e.1 e.2).2.1, (updateMsg_frame k2 e.1 e.2).2.1, hm]
    · rw [updateMsg_buttons_eq, updateMsg_buttons_eq, hm, hb]

theorem applyAll_axes_congr (evs : List (Nat × Nat)) (k1 k2 : Kontrol)
    (hm : k1.axis_map = k2.axis_map) (ha : k1.joy_msg.axes = k2.joy_msg.axes)
    (h1 : k1.slider_range ≠ 0) (h2 : k2.slider_range ≠ 0) :
    (applyAll k1 evs).joy_msg.axes = (applyAll k2 evs).joy_msg.axes := by
  induction evs generalizing k1 k2 with
  | nil => exact ha
  | cons e rest ih =>
    apply ih
    · rw [(updateMsg_frame k1 e.1 e.2).1, (updateMsg_frame k2 e.1 e.2).1, hm]
    · rw [updateMsg_axes_eq, updateMsg_axes_eq, hm, ha]
      simp [axisValue, h1, h2]
    · rw [(updateMsg_frame k1 e.1 e.2).2.2.1]
      exact h1
    · rw [(updateMsg_frame k2 e.1 e.2).2.2.1]
      exact h2

/-! ## Tables, lengths, publication, ordering and the scaling policy -/

/-- C11: in each of the four tables no control id occurs twice, and no control id of the axis
table of a variant occurs in the button table of the same variant; hence, in every state the
node reaches, one event changes at most one slot: either nothing, or one axis and no button,
or one button and no axis. -/
theorem tables_unique_and_disjoint :
    nanoKontrolAxisMapping.Nodup ∧ nanoKontrolButtonMapping.Nodup ∧
    nanoKontrol2AxisMapping.Nodup ∧ nanoKontrol2ButtonMapping.Nodup ∧
    (∀ id ∈ nanoKontrolAxisMapping, id ∉ nanoKontrolButtonMapping) ∧
    (∀ id ∈ nanoKontrol2AxisMapping, id ∉ nanoKontrol2ButtonMapping) ∧
    (∀ t : KONTROL_TYPE, (axisMapping t).Nodup ∧ (buttonMapping t).Nodup ∧
      ∀ id ∈ axisMapping t, id ∉ buttonMapping t) ∧
    ∀ (t : KONTROL_TYPE) (port : Nat) (sr : Int) (evs : List (Nat × Nat)) (id v : Nat),
      ((updateMsg (applyAll (bound t port sr) evs) id v).joy_msg.buttons =
          (applyAll (bound t port sr) evs).joy_msg.buttons ∧
        ∃ i : Nat, ∀ i' : Nat, i' ≠ i →
          (updateMsg (applyAll (bound t port sr) evs) id v).joy_msg.axes[i']? =
            (applyAll (bound t port sr) evs).joy_msg.axes[i']?) ∨
      ((updateMsg (applyAll (bound t port sr) evs) id v).joy_msg.axes =
          (applyAll (bound t port sr) evs).joy_msg.axes ∧
        ∃ j : Nat, ∀ j' : Nat, j' ≠ j →
          (updateMsg (applyAll (bound t port sr) evs) id v).joy_msg.buttons[j']? =
            (applyAll (bound t port sr) evs).joy_msg.buttons[j']?) := by
  refine ⟨by decide, by decide, by decide, by decide, by decide, by decide, ?_, ?_⟩
  · intro t
    exact ⟨axisMapping_nodup t, buttonMapping_nodup t, fun id h => mappings_disjoint t id h⟩
  · intro t port sr evs id v
    have hw := wired_applyAll t evs _ (wired_bound t port sr)
    generalize applyAll (bound t port sr) evs = k at hw
    by_cases ha : id ∈ axisMapping t
    · obtain ⟨i, hi⟩ := List.mem_iff_getElem?.mp ha
      obtain ⟨h1, h2, -⟩ := wired_axis t k hw id i hi
      left
      rw [updateMsg_axis k id v i h1 h2]
      refine ⟨rfl, i, ?_⟩
      intro i' hne
      simp [List.getElem?_set, Ne.symm hne]
    · right
      by_cases hb : id ∈ buttonMapping t
      · obtain ⟨j, hj⟩ := List.mem_iff_getElem?.mp hb
        obtain ⟨h1, h2, -⟩ := wired_button t k hw id j hj
        rw [updateMsg_button k id v j h1 h2]
        refine ⟨rfl, j, ?_⟩
        intro j' hne
        simp [List.getElem?_set, Ne.symm hne]
      · obtain ⟨h1, h2⟩ := wired_neither t k hw id ha hb
        rw [updateMsg_neither k id v h1 h2]
        exact ⟨rfl, 0, fun _ _ => rfl⟩

/-- C12: right after `bindMaps` the axes are as many zeros as the axis table of the variant
has entries (18 for KONTROL, 16 for KONTROL2) and the buttons as many zeros as its button table
has entries (24 for KONTROL, 35 for KONTROL2); and no sequence of `updateMsg` calls, whatever
their arguments, changes either length. -/
theorem snapshot_lengths (k : Kontrol) (t : KONTROL_TYPE) (port : Nat) (sr : Int)
    (evs : List (Nat × Nat)) :
    (bindMaps k).joy_msg.axes = List.replicate (axisMapping k.type).length 0 ∧
    (bindMaps k).joy_msg.buttons = List.replicate (buttonMapping k.type).length 0 ∧
    (axisMapping KONTROL).length = 18 ∧ (buttonMapping KONTROL).length = 24 ∧
    (axisMapping KONTROL2).length = 16 ∧ (buttonMapping KONTROL2).length = 35 ∧
    (bound t port sr).joy_msg.axes = List.replicate (axisMapping t).length 0 ∧
    (bound t port sr).joy_msg.buttons = List.replicate (buttonMapping t).length 0 ∧
    (applyAll k evs).joy_msg.axes.length = k.joy_msg.axes.length ∧
    (applyAll k evs).joy_msg.buttons.length = k.joy_msg.buttons.length ∧
    (applyAll (bound t port sr) evs).joy_msg.axes.length = (axisMapping t).length ∧
    (applyAll (bound t port sr) evs).joy_msg.buttons.length = (buttonMapping t).length := by
  obtain ⟨-, -, -, -, -, -, f7, f8⟩ := applyAll_frame evs k
  obtain ⟨-, -, w3, w4⟩ := wired_applyAll t evs _ (wired_bound t port sr)
  refine ⟨?_, ?_, by decide, by decide, by decide, by decide, ?_, ?_, f7, f8, w3, w4⟩
  · cases h : k.type <;> simp [bindMaps, axisMapping, h]
  · cases h : k.type <;> simp [bindMaps, buttonMapping, h]
  · cases t <;> simp [bound, bindMaps, axisMapping, Kontrol.blank]
  · cases t <;> simp [bound, bindMaps, buttonMapping, Kontrol.blank]

/-- C13 (as stated, at concrete ticks): under KONTROL, a tick whose only frame is
`[176, 99, 5]` (control id 99 is in no table) publishes although axes and buttons are what they
were before the tick; so does a tick whose only frame is `[176, 23, 0]`, which stores 0 in a
button that already holds 0. -/
theorem publish_without_change_counterexample :
    ¬ ((getMessage (bound KONTROL 0 1) [[176, 99, 5]] 0).published ≠ [] →
        (getMessage (bound KONTROL 0 1) [[176, 99, 5]] 0).kontrol.joy_msg.axes ≠
            (bound KONTROL 0 1).joy_msg.axes ∨
          (getMessage (bound KONTROL 0 1) [[176, 99, 5]] 0).kontrol.joy_msg.buttons ≠
            (bound KONTROL 0 1).joy_msg.buttons) ∧
    (getMessage (bound KONTROL 0 1) [[176, 23, 0]] 0).published ≠ [] ∧
    (getMessage (bound KONTROL 0 1) [[176, 23, 0]] 0).kontrol.joy_msg.axes =
      (bound KONTROL 0 1).joy_msg.axes ∧
    (getMessage (bound KONTROL 0 1) [[176, 23, 0]] 0).kontrol.joy_msg.buttons =
      (bound KONTROL 0 1).joy_msg.buttons := by
  refine ⟨?_, by decide, by decide, by decide⟩
  intro h
  have hp : (getMessage (bound KONTROL 0 1) [[176, 99, 5]] 0).published ≠ [] := by decide
  rcases h hp with h1 | h1
  · exact h1 (by decide)
  · exact h1 (by decide)

/-- C13 (amended): in every tick the message is published at most once, and it is published
exactly when at least one drained frame has three bytes with first byte 176; the published
message is the snapshot after draining, stamped with the current time.  Whenever axes or
buttons differ from what they were before the tick, the message is published. -/
theorem publish_at_most_once (k : Kontrol) (queue : List (List Nat)) (now : Nat) :
    (getMessage k queue now).published.length ≤ 1 ∧
    ((getMessage k queue now).published ≠ [] ↔
      ∃ m ∈ queue.takeWhile (fun m => decide (m.length > 0)),
        ∃ b1 b2 : Nat, m = [176, b1, b2]) ∧
    (∀ m ∈ (getMessage k queue now).published,
      m = (getMessage k queue now).kontrol.joy_msg ∧ m.header.stamp = now ∧
      m.axes = (applyAll k (drained queue)).joy_msg.axes ∧
      m.buttons = (applyAll k (drained queue)).joy_msg.buttons) ∧
    ((getMessage k queue now).kontrol.joy_msg.axes ≠ k.joy_msg.axes ∨
      (getMessage k queue now).kontrol.joy_msg.buttons ≠ k.joy_msg.buttons →
      (getMessage k queue now).published ≠ []) := by
  obtain ⟨g1, g2, -⟩ := getMessage_kontrol k queue now
  have hu := update_iff_drained k queue now
  rcases getMessage_published k queue now with ⟨h1, h2, h3⟩ | ⟨h1, h2, -⟩
  · refine ⟨by simp [h2], ?_, ?_, ?_⟩
    · rw [← drained_ne_nil_iff, ← hu]
      simp [h1, h2]
    · intro m hm
      rw [h2, List.mem_singleton] at hm
      subst hm
      exact ⟨rfl, h3, g1, g2⟩
    · intro _
      simp [h2]
  · have hnil : drained queue = [] := by
      by_contra hne
      rw [hu.mpr hne] at h1
      exact Bool.noConfusion h1
    refine ⟨by simp [h2], ?_, ?_, ?_⟩
    · rw [← drained_ne_nil_iff]
      simp [h2, hnil]
    · intro m hm
      rw [h2] at hm
      exact absurd hm (List.not_mem_nil m)
    · intro hch
      rw [g1, g2, hnil] at hch
      rcases hch with hch | hch <;> exact absurd rfl hch

/-- C14: `bindMaps` sets the frame id to "kontrol" when the variant is KONTROL and to
"kontrol2" when it is KONTROL2, and leaves the variant as it is; neither `updateMsg` nor
`getMessage` changes the frame id, and every message `getMessage` publishes carries it. -/
theorem frame_id_canonical (k : Kontrol) (b1 b2 : Nat) (queue : List (List Nat)) (now : Nat) :
    (bindMaps k).joy_msg.header.frame_id = (if k.type = KONTROL then "kontrol" else "kontrol2") ∧
    (bindMaps k).type = k.type ∧
    (updateMsg k b1 b2).joy_msg.header.frame_id = k.joy_msg.header.frame_id ∧
    (updateMsg k b1 b2).type = k.type ∧
    (getMessage k queue now).kontrol.joy_msg.header.frame_id = k.joy_msg.header.frame_id ∧
    (getMessage k queue now).kontrol.type = k.type ∧
    (∀ m ∈ (getMessage k queue now).published, m.header.frame_id = k.joy_msg.header.frame_id) ∧
    (∀ (t : KONTROL_TYPE) (port : Nat) (sr : Int) (evs : List (Nat × Nat)),
      ∀ m ∈ (getMessage (applyAll (bound t port sr) evs) queue now).published,
        m.header.frame_id = (if t = KONTROL then "kontrol" else "kontrol2")) := by
  obtain ⟨-, -, -, f4, -, f6, -, -⟩ := updateMsg_frame k b1 b2
  obtain ⟨-, -, g3, -, -, -, g7, -, -, -⟩ := getMessage_kontrol k queue now
  have hpub : ∀ (s : Kontrol), ∀ m ∈ (getMessage s queue now).published,
      m.header.frame_id = s.joy_msg.header.frame_id := by
    intro s m hm
    have h3 := (getMessage_kontrol s queue now).2.2.1
    have hp : (getMessage s queue now).published = [] ∨
        (getMessage s queue now).published = [(getMessage s queue now).kontrol.joy_msg] := by
      unfold getMessage
      by_cases h : (drain s false queue).2.1 = true <;> simp [h]
    rcases hp with hp | hp
    · rw [hp] at hm
      exact absurd hm (List.not_mem_nil m)
    · rw [hp, List.mem_singleton] at hm
      rw [hm, h3]
  refine ⟨rfl, rfl, by rw [f6], f4, g3, g7, hpub k, ?_⟩
  intro t port sr evs m hm
  rw [hpub _ m hm, (applyAll_frame evs (bound t port sr)).2.2.2.2.2.1]
  cases t <;> rfl

/-- C15: for a queue of non-empty frames, one call of `getMessage` (a total function) empties
the queue, and the axes and buttons it leaves are those obtained by applying `updateMsg`, in
arrival order, to the frames `[176, b1, b2]` of the queue and to no other frame; a non-empty
frame that is not of this form is skipped wherever it stands, the frames after it being
applied as if it were absent. -/
theorem getMessage_drains_queue (k : Kontrol) (queue : List (List Nat)) (now : Nat)
    (hq : ∀ m ∈ queue, m ≠ []) :
    (getMessage k queue now).queue = [] ∧
    (getMessage k queue now).kontrol.joy_msg.axes =
      (applyAll k (queue.filterMap controlChange)).joy_msg.axes ∧
    (getMessage k queue now).kontrol.joy_msg.buttons =
      (applyAll k (queue.filterMap controlChange)).joy_msg.buttons ∧
    (∀ (m : List Nat) (b1 b2 : Nat), controlChange m = some (b1, b2) ↔ m = [176, b1, b2]) ∧
    (∀ (front back : List (List Nat)) (bad : List Nat), queue = front ++ bad :: back →
      ¬ (bad.length = 3 ∧ bad[0]? = some 176) →
      (getMessage k queue now).kontrol.joy_msg.axes =
        (applyAll (applyAll k (front.filterMap controlChange))
          (back.filterMap controlChange)).joy_msg.axes ∧
      (getMessage k queue now).kontrol.joy_msg.buttons =
        (applyAll (applyAll k (front.filterMap controlChange))
          (back.filterMap controlChange)).joy_msg.buttons) := by
  obtain ⟨g1, g2, -, -, -, -, -, -, g9, -⟩ := getMessage_kontrol k queue now
  have hd := drained_of_nonempty queue hq
  rw [hd] at g1 g2
  refine ⟨by rw [g9, drain_rest_of_nonempty queue k false hq], g1, g2,
    fun m b1 b2 => controlChange_eq_some_iff m b1 b2, ?_⟩
  intro front back bad hsplit hbad
  have hnone : controlChange bad = none := by
    unfold controlChange
    have : ¬ (bad.length = 3 ∧ bad.getD 0 0 = 176) := by
      rintro ⟨hl, h0⟩
      apply hbad
      refine ⟨hl, ?_⟩
      match bad, hl, h0 with
      | [a, _, _], _, h0 => simpa using h0
    rw [if_neg this]
  rw [g1, g2, hsplit, List.filterMap_append, List.filterMap_cons, hnone, applyAll_append]
  exact ⟨rfl, rfl⟩

/-- Witness for C15: under KONTROL the queue `[176,23,127]`, `[144,1,2]`, `[1]`, `[176,2,127]`
is drained whole; the second and third frames are skipped and the fourth is applied. -/
theorem getMessage_drains_queue_witness :
    (getMessage (bound KONTROL 0 1) [[176, 23, 127], [144, 1, 2], [1], [176, 2, 127]] 0).queue = [] ∧
    (getMessage (bound KONTROL 0 1)
      [[176, 23, 127], [144, 1, 2], [1], [176, 2, 127]] 0).kontrol.joy_msg.axes =
      (applyAll (bound KONTROL 0 1) [(23, 127), (2, 127)]).joy_msg.axes ∧
    (getMessage (bound KONTROL 0 1)
      [[176, 23, 127], [144, 1, 2], [1], [176, 2, 127]] 0).kontrol.joy_msg.buttons =
      (applyAll (bound KONTROL 0 1) [(23, 127), (2, 127)]).joy_msg.buttons :=
  have h := getMessage_drains_queue (bound KONTROL 0 1)
    [[176, 23, 127], [144, 1, 2], [1], [176, 2, 127]] 0 (by decide)
  ⟨h.1, h.2.1, h.2.2.1⟩

/-- C16 (as stated, at concrete inputs): nothing is clamped.  Under KONTROL the raw byte 255
for control id 2 (axis 0) stores 383/127, above 1, under the centered policy, and 255/127,
above 1, under the unipolar policy. -/
theorem axis_not_saturated_counterexample :
    (updateMsg (bound KONTROL 0 1) 2 255).joy_msg.axes[0]? = some (383 / 127) ∧
    ¬ ((383 : ℚ) / 127 ≤ 1) ∧
    (updateMsg (bound KONTROL 0 0) 2 255).joy_msg.axes[0]? = some (255 / 127) ∧
    ¬ ((255 : ℚ) / 127 ≤ 1) := by
  refine ⟨?_, by norm_num, ?_, by norm_num⟩
  · rw [show bound KONTROL 0 1 = applyAll (bound KONTROL 0 1) [] from rfl,
      written_axis KONTROL 0 1 [] 0 2 255 (by decide)]
    norm_num [axisValue]
  · rw [show bound KONTROL 0 0 = applyAll (bound KONTROL 0 0) [] from rfl,
      written_axis KONTROL 0 0 [] 0 2 255 (by decide)]
    norm_num [axisValue]

/-- C16 (amended): for a value byte `v` in 0..255 and an axis control id at position `i`, the
value `updateMsg` stores in `axes[i]` is not clamped: under the centered policy it is
`(v - 63.5) / 63.5`, between -1 and 383/127, and at most 1 exactly when `v ≤ 127`; under the
unipolar policy it is `v / 127`, between 0 and 255/127, and at most 1 exactly when
`v ≤ 127`. -/
theorem axis_range_of_byte (t : KONTROL_TYPE) (port : Nat) (sr : Int) (evs : List (Nat × Nat))
    (i id v : Nat) (hi : (axisMapping t)[i]? = some id) (hv : v ≤ 255) :
    ∃ x : ℚ, (updateMsg (applyAll (bound t port sr) evs) id v).joy_msg.axes[i]? = some x ∧
      (sr ≠ 0 → x = ((v : ℚ) - 63.5) / 63.5 ∧ -1 ≤ x ∧ x ≤ 383 / 127 ∧ (x ≤ 1 ↔ v ≤ 127)) ∧
      (sr = 0 → x = (v : ℚ) / 127 ∧ 0 ≤ x ∧ x ≤ 255 / 127 ∧ (x ≤ 1 ↔ v ≤ 127)) := by
  have h0 : (0 : ℚ) ≤ v := Nat.cast_nonneg v
  have h255 : (v : ℚ) ≤ 255 := by exact_mod_cast hv
  refine ⟨axisValue sr v, written_axis t port sr evs i id v hi, ?_, ?_⟩
  · intro hsr
    have e : axisValue sr v = ((v : ℚ) - 63.5) / 63.5 := by simp [axisValue, hsr]
    rw [e]
    have e63 : (63.5 : ℚ) = 127 / 2 := by norm_num
    refine ⟨rfl, ?_, ?_, ?_⟩
    · rw [e63, le_div_iff₀ (by norm_num)]
      linarith
    · rw [e63, div_le_iff₀ (by norm_num)]
      linarith
    · rw [e63, div_le_iff₀ (by norm_num)]
      constructor
      · intro h
        have h2 : (v : ℚ) ≤ 127 := by linarith
        exact_mod_cast h2
      · intro h
        have h2 : (v : ℚ) ≤ 127 := by exact_mod_cast h
        linarith
  · intro hsr
    have e : axisValue sr v = (v : ℚ) / 127 := by
      subst hsr
      norm_num [axisValue]
    rw [e]
    refine ⟨rfl, by positivity, ?_, ?_⟩
    · exact div_le_div_of_nonneg_right h255 (by norm_num)
    · rw [div_le_one (by norm_num)]
      exact Nat.cast_le_ofNat

/-- Witness for C16: under KONTROL2 with `slider_range = 1`, control id 16 (axis 8), raw 200. -/
theorem axis_range_of_byte_witness :
    ∃ x : ℚ, (updateMsg (applyAll (bound KONTROL2 0 1) []) 16 200).joy_msg.axes[8]? = some x ∧
      ((1 : Int) ≠ 0 → x = (((200 : Nat) : ℚ) - 63.5) / 63.5 ∧ -1 ≤ x ∧ x ≤ 383 / 127 ∧
        (x ≤ 1 ↔ 200 ≤ 127)) ∧
      ((1 : Int) = 0 → x = ((200 : Nat) : ℚ) / 127 ∧ 0 ≤ x ∧ x ≤ 255 / 127 ∧
        (x ≤ 1 ↔ 200 ≤ 127)) :=
  axis_range_of_byte KONTROL2 0 1 [] 8 16 200 (by decide) (by decide)

/-- C17: last write wins.  From any state the node has reached, after a sequence of events
the axis slot `i` holds the normalised value of the last event of the sequence that carries
the control id at position `i` of the axis table, and its earlier content if there is no such
event; likewise for every button slot.  Two events with different control ids commute, and an
event applied twice in a row leaves the same message as applied once. -/
theorem last_write_wins (t : KONTROL_TYPE) (port : Nat) (sr : Int)
    (pre evs : List (Nat × Nat)) :
    (∀ i id : Nat, (axisMapping t)[i]? = some id →
      (applyAll (applyAll (bound t port sr) pre) evs).joy_msg.axes[i]? =
        match evs.reverse.find? (fun e => decide (e.1 = id)) with
        | some e => some (if sr ≠ 0 then ((e.2 : ℚ) - 63.5) / 63.5 else (e.2 : ℚ) / 127.0)
        | none => (applyAll (bound t port sr) pre).joy_msg.axes[i]?) ∧
    (∀ j id : Nat, (buttonMapping t)[j]? = some id →
      (applyAll (applyAll (bound t port sr) pre) evs).joy_msg.buttons[j]? =
        match evs.reverse.find? (fun e => decide (e.1 = id)) with
        | some e => some (if e.2 > 0 then (1 : Int) else 0)
        | none => (applyAll (bound t port sr) pre).joy_msg.buttons[j]?) ∧
    (∀ id1 v1 id2 v2 : Nat, id1 ≠ id2 →
      (updateMsg (updateMsg (applyAll (bound t port sr) pre) id1 v1) id2 v2).joy_msg =
        (updateMsg (updateMsg (applyAll (bound t port sr) pre) id2 v2) id1 v1).joy_msg) ∧
    (∀ id v : Nat,
      (updateMsg (updateMsg (applyAll (bound t port sr) pre) id v) id v).joy_msg =
        (updateMsg (applyAll (bound t port sr) pre) id v).joy_msg) := by
  have hw := wired_applyAll t pre _ (wired_bound t port sr)
  have hsr : (applyAll (bound t port sr) pre).slider_range = sr := slider_range_applyAll pre _
  refine ⟨?_, ?_, ?_, ?_⟩
  · intro i id hi
    rw [axis_slot_applyAll t _ hw i id hi evs, hsr]
    rfl
  · intro j id hj
    exact button_slot_applyAll t _ hw j id hj evs
  · intro id1 v1 id2 v2 hne
    exact updateMsg_comm t _ hw id1 v1 id2 v2 hne
  · intro id v
    exact updateMsg_idem _ id v

/-- Witness for C17: under KONTROL, after the events (23, 127), (2, 10), (23, 0), (2, 127)
button 0 (control id 23) holds 0 and axis 0 (control id 2) holds 1, the values of the last
event of each id; button 1 (control id 33), not addressed, keeps its 0. -/
theorem last_write_wins_witness :
    (applyAll (applyAll (bound KONTROL 0 1) []) [(23, 127), (2, 10), (23, 0), (2, 127)]).joy_msg.buttons[0]? =
      some 0 ∧
    (applyAll (applyAll (bound KONTROL 0 1) []) [(23, 127), (2, 10), (23, 0), (2, 127)]).joy_msg.buttons[1]? =
      (applyAll (bound KONTROL 0 1) []).joy_msg.buttons[1]? ∧
    (applyAll (applyAll (bound KONTROL 0 1) []) [(23, 127), (2, 10), (23, 0), (2, 127)]).joy_msg.axes[0]? =
      some ((((127 : Nat) : ℚ) - 63.5) / 63.5) :=
  have h := last_write_wins KONTROL 0 1 [] [(23, 127), (2, 10), (23, 0), (2, 127)]
  ⟨h.2.1 0 23 (by decide), h.2.1 1 33 (by decide), h.1 0 2 (by decide)⟩

/-- C18: two runs of the same variant that differ in `slider_range` only, fed the same earlier
events and the same queue in a tick, end the tick with the same buttons and the same flag
`update`; when both values of `slider_range` are non-zero they end it with the same axes too,
hence with the same message and the same publication. -/
theorem slider_range_touches_axes_only (t : KONTROL_TYPE) (port : Nat) (sr1 sr2 : Int)
    (pre : List (Nat × Nat)) (queue : List (List Nat)) (now : Nat) :
    (applyAll (bound t port sr1) pre).joy_msg.buttons =
      (applyAll (bound t port sr2) pre).joy_msg.buttons ∧
    (getMessage (applyAll (bound t port sr1) pre) queue now).kontrol.joy_msg.buttons =
      (getMessage (applyAll (bound t port sr2) pre) queue now).kontrol.joy_msg.buttons ∧
    (getMessage (applyAll (bound t port sr1) pre) queue now).update =
      (getMessage (applyAll (bound t port sr2) pre) queue now).update ∧
    (sr1 ≠ 0 → sr2 ≠ 0 →
      (applyAll (bound t port sr1) pre).joy_msg.axes =
        (applyAll (bound t port sr2) pre).joy_msg.axes ∧
      (getMessage (applyAll (bound t port sr1) pre) queue now).kontrol.joy_msg =
        (getMessage (applyAll (bound t port sr2) pre) queue now).kontrol.joy_msg ∧
      (getMessage (applyAll (bound t port sr1) pre) queue now).published =
        (getMessage (applyAll (bound t port sr2) pre) queue now).published) := by
  have hb : ∀ evs : List (Nat × Nat), (applyAll (bound t port sr1) evs).joy_msg.buttons =
      (applyAll (bound t port sr2) evs).joy_msg.buttons :=
    fun evs => applyAll_buttons_congr evs _ _ rfl rfl
  have hu : (getMessage (applyAll (bound t port sr1) pre) queue now).update =
      (getMessage (applyAll (bound t port sr2) pre) queue now).update := by
    rw [(getMessage_kontrol _ queue now).2.2.2.2.2.2.2.2.2,
      (getMessage_kontrol (applyAll (bound t port sr2) pre) queue now).2.2.2.2.2.2.2.2.2,
      drain_flag, drain_flag]
  have hb2 : (getMessage (applyAll (bound t port sr1) pre) queue now).kontrol.joy_msg.buttons =
      (getMessage (applyAll (bound t port sr2) pre) queue now).kontrol.joy_msg.buttons := by
    rw [(getMessage_kontrol _ queue now).2.1,
      (getMessage_kontrol (applyAll (bound t port sr2) pre) queue now).2.1,
      ← applyAll_append, ← applyAll_append]
    exact hb _
  refine ⟨hb pre, hb2, hu, ?_⟩
  intro h1 h2
  have ha : ∀ evs : List (Nat × Nat), (applyAll (bound t port sr1) evs).joy_msg.axes =
      (applyAll (bound t port sr2) evs).joy_msg.axes :=
    fun evs => applyAll_axes_congr evs _ _ rfl rfl h1 h2
  have ha2 : (getMessage (applyAll (bound t port sr1) pre) queue now).kontrol.joy_msg.axes =
      (getMessage (applyAll (bound t port sr2) pre) queue now).kontrol.joy_msg.axes := by
    rw [(getMessage_kontrol _ queue now).1,
      (getMessage_kontrol (applyAll (bound t port sr2) pre) queue now).1,
      ← applyAll_append, ← applyAll_append]
    exact ha _
  have hh : ∀ sr : Int, (applyAll (bound t port sr) pre).joy_msg.header =
      (bound t port sr1).joy_msg.header := fun sr => (applyAll_frame pre _).2.2.2.2.2.1
  have hmsg : (getMessage (applyAll (bound t port sr1) pre) queue now).kontrol.joy_msg =
      (getMessage (applyAll (bound t port sr2) pre) queue now).kontrol.joy_msg := by
    apply joy_eq _ _ _ ha2 hb2
    rcases getMessage_published (applyAll (bound t port sr1) pre) queue now with
      ⟨u1, -, s1⟩ | ⟨u1, -, s1⟩ <;>
    rcases getMessage_published (applyAll (bound t port sr2) pre) queue now with
      ⟨u2, -, s2⟩ | ⟨u2, -, s2⟩
    · cases hx : (getMessage (applyAll (bound t port sr1) pre) queue now).kontrol.joy_msg.header
      cases hy : (getMessage (applyAll (bound t port sr2) pre) queue now).kontrol.joy_msg.header
      have f1 := (getMessage_kontrol (applyAll (bound t port sr1) pre) queue now).2.2.1
      have f2 := (getMessage_kontrol (applyAll (bound t port sr2) pre) queue now).2.2.1
      rw [hx] at s1 f1
      rw [hy] at s2 f2
      simp only at s1 s2 f1 f2
      rw [s1, s2, f1, f2, hh sr1, hh sr2]
    · rw [hu, u2] at u1
      exact Bool.noConfusion u1
    · rw [hu, u2] at u1
      exact Bool.noConfusion u1
    · cases hx : (getMessage (applyAll (bound t port sr1) pre) queue now).kontrol.joy_msg.header
      cases hy : (getMessage (applyAll (bound t port sr2) pre) queue now).kontrol.joy_msg.header
      have f1 := (getMessage_kontrol (applyAll (bound t port sr1) pre) queue now).2.2.1
      have f2 := (getMessage_kontrol (applyAll (bound t port sr2) pre) queue now).2.2.1
      rw [hx] at s1 f1
      rw [hy] at s2 f2
      simp only at s1 s2 f1 f2
      rw [s1, s2, f1, f2, hh sr1, hh sr2]
  refine ⟨ha pre, hmsg, ?_⟩
  rcases getMessage_published (applyAll (bound t port sr1) pre) queue now with
    ⟨u1, p1, -⟩ | ⟨u1, p1, -⟩ <;>
  rcases getMessage_published (applyAll (bound t port sr2) pre) queue now with
    ⟨u2, p2, -⟩ | ⟨u2, p2, -⟩
  · rw [p1, p2, hmsg]
  · rw [hu, u2] at u1
    exact Bool.noConfusion u1
  · rw [hu, u2] at u1
    exact Bool.noConfusion u1
  · rw [p1, p2]

/-- Witness for C18: KONTROL with `slider_range` 1 and 2, one earlier event and a queue of two
frames. -/
theorem slider_range_touches_axes_only_witness :
    (getMessage (applyAll (bound KONTROL 0 1) [(3, 5)]) [[176, 2, 100], [176, 23, 1]] 0).kontrol.joy_msg =
      (getMessage (applyAll (bound KONTROL 0 2) [(3, 5)]) [[176, 2, 100], [176, 23, 1]] 0).kontrol.joy_msg ∧
    (getMessage (applyAll (bound KONTROL 0 1) [(3, 5)]) [[176, 2, 100], [176, 23, 1]] 0).published =
      (getMessage (applyAll (bound KONTROL 0 2) [(3, 5)]) [[176, 2, 100], [176, 23, 1]] 0).published :=
  (slider_range_touches_axes_only KONTROL 0 1 2 [(3, 5)] [[176, 2, 100], [176, 23, 1]] 0).2.2.2
    (by decide) (by decide) |>.2

end Nanokontrol
